import Mathlib

/-!
Verification of the OCPP 1.6 incoming-request service and the automatic
transaction generator (ATG) of the charging-stations simulator.

The embedding follows the TypeScript sources:
  - `src/charging-station/ui-websocket-services/AbstractUIService.ts`
    (containing the class `OCPP16IncomingRequestService`),
  - `src/charging-station/AutomaticTransactionGenerator.ts`.
Methods of the `ChargingStation` class that are not part of the given
sources (connector lookup, configuration lookup, registration predicates,
metering helpers) are modelled from the specification and are marked as
such in their doc comments.

JavaScript conventions used throughout the embedding:
  - an optional / possibly `undefined` value is an `Option`;
  - JS strict equality `===` on such values is `Option` equality
    (`undefined === undefined` is `true`);
  - truthiness of a number is `≠ 0` (and `undefined` is falsy);
  - a runtime `TypeError` (field access on `undefined`) makes the modelled
    function return `none`.
-/

namespace ChargingStationsSimulator

/-- Registration states of a station. Modelled from the spec: the
registration state is one of Unregistered, Pending, Registered, Unknown
(spec section 3). -/
inductive RegistrationStatus
  | Unregistered
  | Pending
  | Registered
  | Unknown
deriving DecidableEq, Repr

/-- Modelled from the spec: `isRegistered()` of the missing
`ChargingStation` class holds exactly in the Registered state
(spec section 4.3, gating rule 2). -/
def isRegistered (r : RegistrationStatus) : Bool := r = RegistrationStatus.Registered

/-- Modelled from the spec: `isInPendingState()` of the missing
`ChargingStation` class holds exactly in the Pending state. -/
def isInPendingState (r : RegistrationStatus) : Bool := r = RegistrationStatus.Pending

/-- Modelled from the spec: `isInUnknownState()` of the missing
`ChargingStation` class holds exactly in the Unknown state. -/
def isInUnknownState (r : RegistrationStatus) : Bool := r = RegistrationStatus.Unknown

/-- The OCPP 1.6 charge point statuses (`OCPP16ChargePointStatus`). -/
inductive OCPP16ChargePointStatus
  | Available
  | Preparing
  | Charging
  | SuspendedEVSE
  | SuspendedEV
  | Finishing
  | Reserved
  | Unavailable
  | Faulted
deriving DecidableEq, Repr

/-- `OCPP16AvailabilityType` of a connector. -/
inductive OCPP16AvailabilityType
  | Operative
  | Inoperative
deriving DecidableEq, Repr

/-- `OCPP16AuthorizationStatus` of an idTagInfo. -/
inductive OCPP16AuthorizationStatus
  | Accepted
  | Blocked
  | Expired
  | Invalid
  | ConcurrentTx
deriving DecidableEq, Repr

/-- `OCPP16StopTransactionReason` (the subset used by the embedded code:
`None` is the ATG default, `UnlockCommand` is used by UnlockConnector). -/
inductive OCPP16StopTransactionReason
  | NONE
  | UnlockCommand
  | DeAuthorized
  | EmergencyStop
  | EVDisconnected
  | HardReset
  | SoftReset
  | PowerLoss
  | Reboot
  | Local
  | Other
  | Remote
deriving DecidableEq, Repr

/-- `ChargingProfilePurposeType`. -/
inductive ChargingProfilePurposeType
  | ChargePointMaxProfile
  | TxDefaultProfile
  | TxProfile
deriving DecidableEq, Repr

/-- `OCPP16SupportedFeatureProfiles`. -/
inductive OCPP16SupportedFeatureProfiles
  | Core
  | FirmwareManagement
  | LocalAuthListManagement
  | Reservation
  | SmartCharging
  | RemoteTrigger
deriving DecidableEq, Repr

/-- `OCPP16IncomingRequestCommand`: the Central-System-initiated commands. -/
inductive OCPP16IncomingRequestCommand
  | Reset
  | ClearCache
  | ChangeAvailability
  | ChangeConfiguration
  | GetConfiguration
  | SetChargingProfile
  | ClearChargingProfile
  | RemoteStartTransaction
  | RemoteStopTransaction
  | GetDiagnostics
  | TriggerMessage
  | UnlockConnector
deriving DecidableEq, Repr

/-- `MessageTrigger` values of a TriggerMessage request. -/
inductive MessageTrigger
  | BootNotification
  | DiagnosticsStatusNotification
  | FirmwareStatusNotification
  | Heartbeat
  | MeterValues
  | StatusNotification
deriving DecidableEq, Repr

/-- An `OCPP16ChargingProfile`. Only the fields the embedded handlers read
are kept; all three are `Option` so that the empty JS object `{}` written
by ClearChargingProfile (all fields `undefined`) is representable. -/
structure OCPP16ChargingProfile where
  chargingProfileId : Option Nat := none
  stackLevel : Option Nat := none
  chargingProfilePurpose : Option ChargingProfilePurposeType := none
deriving DecidableEq, Repr

/-- The empty JS object `{}` that ClearChargingProfile stores in place of a
cleared profile. -/
def emptyChargingProfile : OCPP16ChargingProfile := {}

/-- Per-connector state (`ConnectorStatus`), as described in spec section 3. -/
structure ConnectorStatus where
  availability : OCPP16AvailabilityType := OCPP16AvailabilityType.Operative
  status : OCPP16ChargePointStatus := OCPP16ChargePointStatus.Available
  transactionStarted : Bool := false
  transactionRemoteStarted : Bool := false
  transactionId : Option Nat := none
  transactionIdTag : Option String := none
  transactionEnergyActiveImportRegisterValue : Nat := 0
  authorizeIdTag : Option String := none
  localAuthorizeIdTag : Option String := none
  idTagLocalAuthorized : Bool := false
  chargingProfiles : List OCPP16ChargingProfile := []
deriving DecidableEq, Repr

/-- A configuration entry (`key`, `readonly`, `value`, optional `visible`,
`reboot`), spec section 3. `visible` is `Option Bool` because the source
tests it with `Utils.isUndefined`. -/
structure ConfigurationKey where
  key : String
  readonly : Bool := false
  value : String
  visible : Option Bool := none
  reboot : Bool := false
deriving DecidableEq, Repr

/-- The station state visible to the embedded handlers: connector map
(an insertion-ordered association list, mirroring the JS `Map`),
configuration store and the boolean station parameters the handlers read. -/
structure ChargingStation where
  connectors : List (Nat × ConnectorStatus) := []
  configurationKey : List ConfigurationKey := []
  registrationStatus : RegistrationStatus := RegistrationStatus.Registered
  ocppStrictCompliance : Bool := false
  beginEndMeterValues : Bool := false
  outOfOrderEndMeterValues : Bool := false
  supportedFeatureProfiles : List OCPP16SupportedFeatureProfiles := []
  authorizeRemoteTxRequests : Bool := false
  localAuthListEnabled : Bool := false
  authorizedTags : List String := []
  mayAuthorizeAtRemoteStart : Bool := false
deriving DecidableEq, Repr

/-- Modelled from the spec: connector `lookup(id)` of the missing
`ChargingStation.getConnectorStatus` (spec section 4.1); first entry of the
connector map with the given id. -/
def getConnectorStatus (st : ChargingStation) (id : Nat) : Option ConnectorStatus :=
  (st.connectors.find? (fun p => p.1 == id)).map (fun p => p.2)

/-- Modelled from the spec: `getConnectorStatus` applied to a possibly
absent connector id; a JS `Map` keyed by numbers returns `undefined` for the
key `undefined`, so lookup of an absent id yields no connector. -/
def getConnectorStatusOpt (st : ChargingStation) (id : Option Nat) : Option ConnectorStatus :=
  match id with
  | some i => getConnectorStatus st i
  | none => none

/-- In-place mutation of one connector of the station map (the JS handlers
mutate the `ConnectorStatus` object held by the `Map`). -/
def updateConnector (st : ChargingStation) (id : Nat) (f : ConnectorStatus → ConnectorStatus) :
    ChargingStation :=
  { st with connectors := st.connectors.map (fun p => if p.1 = id then (p.1, f p.2) else p) }

/-- Modelled from the spec: `isChargingStationAvailable()` of the missing
`ChargingStation` class; station-level availability is the availability of
the pseudo-connector 0 (spec section 3, invariant 3). -/
def isChargingStationAvailable (st : ChargingStation) : Bool :=
  (getConnectorStatus st 0).map (fun c => c.availability) = some OCPP16AvailabilityType.Operative

/-- Modelled from the spec: `OCPP16ServiceUtils.checkFeatureProfile`; a
feature profile is enabled iff the station descriptor lists it
(spec sections 4.4 and 6, feature-profile enablement). -/
def checkFeatureProfile (st : ChargingStation) (p : OCPP16SupportedFeatureProfiles) : Bool :=
  st.supportedFeatureProfiles.contains p

/-- Modelled from the spec: `energyRegisterFor(transactionId)` of the
missing `ChargingStation.getEnergyActiveImportRegisterByTransactionId`
(spec section 4.1): the energy register of the first connector with id > 0
carrying the given transaction id. The argument is the raw JS value, so it
may be `undefined` (`none`), and comparison is JS `===`. -/
def getEnergyActiveImportRegisterByTransactionId (st : ChargingStation) (tid : Option Nat) :
    Option Nat :=
  (st.connectors.find? (fun p => p.1 != 0 && p.2.transactionId == tid)).map
    (fun p => p.2.transactionEnergyActiveImportRegisterValue)

/-- Modelled from the spec: `idTagFor(transactionId)` of the missing
`ChargingStation.getTransactionIdTag` (spec section 4.1): the idTag of the
transaction of the first connector with id > 0 carrying the given
transaction id. -/
def getTransactionIdTag (st : ChargingStation) (tid : Option Nat) : Option String :=
  (st.connectors.find? (fun p => p.1 != 0 && p.2.transactionId == tid)).bind
    (fun p => p.2.transactionIdTag)

/-- Outbound OCPP requests emitted by the handlers through the outbound
request adapter, with the payload fields the claims are about. -/
inductive OutboundRequest
  | statusNotification (connectorId : Nat) (status : OCPP16ChargePointStatus)
  | meterValues (connectorId : Nat) (transactionId : Option Nat)
  | stopTransaction (transactionId : Option Nat) (meterStop : Option Nat)
      (idTag : Option String) (reason : Option OCPP16StopTransactionReason)
  | authorize (idTag : String)
  | startTransaction (connectorId : Nat) (idTag : String)
deriving DecidableEq, Repr

/-- Outcome of the request router for one incoming request. -/
inductive RouterOutcome
  | dispatched
  | securityError
  | notImplemented
deriving DecidableEq, Repr

/-- The gating logic of `OCPP16IncomingRequestService.incomingRequestHandler`
(AbstractUIService.ts lines 180-240): the strict-compliance Pending check on
the two remote transaction commands, then the registration gate, then the
handler-map lookup. `hasHandler` stands for
`this.incomingRequestHandlers.has(commandName)`. -/
def incomingRequestHandlerGate (strict : Bool) (reg : RegistrationStatus)
    (hasHandler : OCPP16IncomingRequestCommand → Bool)
    (commandName : OCPP16IncomingRequestCommand) : RouterOutcome :=
  if strict && isInPendingState reg
      && (commandName == OCPP16IncomingRequestCommand.RemoteStartTransaction
          || commandName == OCPP16IncomingRequestCommand.RemoteStopTransaction) then
    RouterOutcome.securityError
  else if isRegistered reg || (!strict && isInUnknownState reg) then
    if hasHandler commandName then RouterOutcome.dispatched
    else RouterOutcome.notImplemented
  else
    RouterOutcome.securityError

/-- C1: for every incoming request, if strict compliance is on, the station
is Pending and the command is RemoteStartTransaction or
RemoteStopTransaction the router raises SecurityError; otherwise the
command is dispatched iff the station is Registered or strict compliance is
off and the state is Unknown (SecurityError in all other states), and
NotImplemented when dispatch is allowed but no handler is registered. -/
theorem router_gating (strict : Bool) (reg : RegistrationStatus)
    (hasHandler : OCPP16IncomingRequestCommand → Bool)
    (commandName : OCPP16IncomingRequestCommand) :
    (strict = true → reg = RegistrationStatus.Pending →
      (commandName = OCPP16IncomingRequestCommand.RemoteStartTransaction ∨
       commandName = OCPP16IncomingRequestCommand.RemoteStopTransaction) →
      incomingRequestHandlerGate strict reg hasHandler commandName =
        RouterOutcome.securityError)
    ∧ (incomingRequestHandlerGate strict reg hasHandler commandName =
        RouterOutcome.dispatched ↔
        ((reg = RegistrationStatus.Registered ∨
          (strict = false ∧ reg = RegistrationStatus.Unknown)) ∧
         hasHandler commandName = true))
    ∧ (incomingRequestHandlerGate strict reg hasHandler commandName =
        RouterOutcome.notImplemented ↔
        ((reg = RegistrationStatus.Registered ∨
          (strict = false ∧ reg = RegistrationStatus.Unknown)) ∧
         hasHandler commandName = false))
    ∧ (incomingRequestHandlerGate strict reg hasHandler commandName =
        RouterOutcome.securityError ↔
        ¬(reg = RegistrationStatus.Registered ∨
          (strict = false ∧ reg = RegistrationStatus.Unknown))) := by
  cases hH : hasHandler commandName <;> cases strict <;> cases reg <;>
    cases commandName <;>
    simp [incomingRequestHandlerGate, isRegistered, isInPendingState, isInUnknownState, hH]

/-- Witness for `router_gating`: at a concrete input with strict compliance
on and a Pending station, a RemoteStartTransaction is answered with
SecurityError. -/
theorem router_gating_witness :
    incomingRequestHandlerGate true RegistrationStatus.Pending (fun _ => true)
      OCPP16IncomingRequestCommand.RemoteStartTransaction = RouterOutcome.securityError :=
  (router_gating true RegistrationStatus.Pending (fun _ => true)
      OCPP16IncomingRequestCommand.RemoteStartTransaction).1 rfl rfl (Or.inl rfl)

/-! ## Configuration store (ChangeConfiguration / GetConfiguration) -/

/-- JS `String.prototype.toLowerCase` on the (ASCII) configuration keys,
character by character. -/
def lowerChars (s : String) : List Char := s.data.map Char.toLower

/-- Modelled from the spec: the key comparison of the missing
`ChargingStation.getConfigurationKey(key, caseInsensitive)` /
`setConfigurationKeyValue(key, value, caseInsensitive)` (spec section 4.2:
`set(key, value, caseInsensitive: bool = false)`): keys compare verbatim,
or lowercased when `caseInsensitive` is set. -/
def configKeyPred (key : String) (caseInsensitive : Bool) (c : ConfigurationKey) : Bool :=
  if caseInsensitive then lowerChars c.key == lowerChars key else c.key == key

/-- Modelled from the spec: `ChargingStation.getConfigurationKey`
(`get(key)` of spec section 4.2): first entry matching the key. -/
def getConfigurationKey (cfg : List ConfigurationKey) (key : String)
    (caseInsensitive : Bool := false) : Option ConfigurationKey :=
  cfg.find? (configKeyPred key caseInsensitive)

/-- Update the value of the first entry satisfying `p` (the JS code mutates
the entry object found by `getConfigurationKey`). -/
def updateFirstValue (p : ConfigurationKey → Bool) (v : String) :
    List ConfigurationKey → List ConfigurationKey
  | [] => []
  | c :: rest =>
    if p c then { c with value := v } :: rest else c :: updateFirstValue p v rest

/-- Modelled from the spec: `ChargingStation.setConfigurationKeyValue`
(`set` of spec section 4.2): writes the value of the first entry matching
the key; no effect when the key is absent. -/
def setConfigurationKeyValue (cfg : List ConfigurationKey) (key value : String)
    (caseInsensitive : Bool := false) : List ConfigurationKey :=
  updateFirstValue (configKeyPred key caseInsensitive) value cfg

/-- A ChangeConfiguration request payload. -/
structure ChangeConfigurationRequest where
  key : String
  value : String
deriving DecidableEq, Repr

/-- `ConfigurationStatus` of a ChangeConfiguration response. -/
inductive ConfigurationStatus
  | Accepted
  | Rejected
  | RebootRequired
  | NotSupported
deriving DecidableEq, Repr

/-- Result of `handleRequestChangeConfiguration`: the configuration store
after the call, the response, and how often the heartbeat and the
WebSocket ping were restarted. -/
structure ChangeConfigurationOutcome where
  configurationKey : List ConfigurationKey
  response : ConfigurationStatus
  heartbeatRestarts : Nat
  webSocketPingRestarts : Nat
deriving DecidableEq, Repr

/-- `handleRequestChangeConfiguration` (AbstractUIService.ts lines 367-428),
projected onto the configuration store it reads and writes. The key lookup
is case-insensitive (`getConfigurationKey(commandPayload.key, true)`); a
write to one heartbeat alias additionally writes the sibling alias
case-sensitively and restarts the heartbeat once. -/
def handleRequestChangeConfiguration (cfg : List ConfigurationKey)
    (req : ChangeConfigurationRequest) : ChangeConfigurationOutcome :=
  match getConfigurationKey cfg req.key true with
  | none => ⟨cfg, ConfigurationStatus.NotSupported, 0, 0⟩
  | some keyToChange =>
    if keyToChange.readonly then ⟨cfg, ConfigurationStatus.Rejected, 0, 0⟩
    else
      let valueChanged := keyToChange.value ≠ req.value
      let cfg1 := if valueChanged then setConfigurationKeyValue cfg req.key req.value true else cfg
      let hb1 := keyToChange.key = "HeartBeatInterval" ∧ valueChanged
      let cfg2 := if hb1 then setConfigurationKeyValue cfg1 "HeartbeatInterval" req.value else cfg1
      let hb2 := keyToChange.key = "HeartbeatInterval" ∧ valueChanged
      let cfg3 := if hb2 then setConfigurationKeyValue cfg2 "HeartBeatInterval" req.value else cfg2
      let heartbeatRestarts := if hb1 ∨ hb2 then 1 else 0
      let pingRestarts :=
        if keyToChange.key = "WebSocketPingInterval" ∧ valueChanged then 1 else 0
      let response :=
        if keyToChange.reboot then ConfigurationStatus.RebootRequired
        else ConfigurationStatus.Accepted
      ⟨cfg3, response, heartbeatRestarts, pingRestarts⟩

/-- Result of `handleRequestGetConfiguration`: the visible entries found
(key, readonly, value) and the unknown keys. -/
structure GetConfigurationResult where
  configurationKey : List (String × Bool × String)
  unknownKey : List String
deriving DecidableEq, Repr

/-- Effective visibility of an entry: the source sets an undefined
`visible` to `true` before testing it. -/
def effectiveVisible (c : ConfigurationKey) : Bool := c.visible.getD true

/-- `handleRequestGetConfiguration` (AbstractUIService.ts lines 322-365):
without a key list, all visible entries; with a key list, a case-sensitive
lookup per key, invisible entries skipped, missing keys reported unknown. -/
def handleRequestGetConfiguration (cfg : List ConfigurationKey)
    (keys : Option (List String)) : GetConfigurationResult :=
  match keys with
  | none => ⟨(cfg.filter effectiveVisible).map (fun c => (c.key, c.readonly, c.value)), []⟩
  | some [] => ⟨(cfg.filter effectiveVisible).map (fun c => (c.key, c.readonly, c.value)), []⟩
  | some ks =>
    ks.foldl
      (fun acc key =>
        match getConfigurationKey cfg key with
        | some keyFound =>
          if effectiveVisible keyFound then
            ⟨acc.configurationKey ++ [(keyFound.key, keyFound.readonly, keyFound.value)],
             acc.unknownKey⟩
          else acc
        | none => ⟨acc.configurationKey, acc.unknownKey ++ [key]⟩)
      ⟨[], []⟩

/-- C4: a ChangeConfiguration whose key resolves to no stored entry answers
NotSupported and leaves the store unchanged; one resolving to a read-only
entry answers Rejected and leaves the store unchanged; neither case
restarts the heartbeat or the WebSocket ping. -/
theorem changeConfiguration_unknown_and_readonly (cfg : List ConfigurationKey)
    (req : ChangeConfigurationRequest) :
    (getConfigurationKey cfg req.key true = none →
      handleRequestChangeConfiguration cfg req =
        ⟨cfg, ConfigurationStatus.NotSupported, 0, 0⟩)
    ∧ (∀ k, getConfigurationKey cfg req.key true = some k → k.readonly = true →
      handleRequestChangeConfiguration cfg req =
        ⟨cfg, ConfigurationStatus.Rejected, 0, 0⟩) := by
  constructor
  · intro h
    simp [handleRequestChangeConfiguration, h]
  · intro k hk hro
    simp [handleRequestChangeConfiguration, hk, hro]

/-- Witness for `changeConfiguration_unknown_and_readonly`: an unknown key
is NotSupported and a read-only key is Rejected on concrete stores. -/
theorem changeConfiguration_unknown_and_readonly_witness :
    handleRequestChangeConfiguration [⟨"A", false, "1", none, false⟩] ⟨"B", "2"⟩ =
      ⟨[⟨"A", false, "1", none, false⟩], ConfigurationStatus.NotSupported, 0, 0⟩
    ∧ handleRequestChangeConfiguration [⟨"A", true, "1", none, false⟩] ⟨"A", "2"⟩ =
      ⟨[⟨"A", true, "1", none, false⟩], ConfigurationStatus.Rejected, 0, 0⟩ :=
  ⟨(changeConfiguration_unknown_and_readonly [⟨"A", false, "1", none, false⟩] ⟨"B", "2"⟩).1
      (by decide),
   (changeConfiguration_unknown_and_readonly [⟨"A", true, "1", none, false⟩] ⟨"A", "2"⟩).2
      ⟨"A", true, "1", none, false⟩ (by decide) rfl⟩

/-- C8 counterexample: the configuration key lookup of ChangeConfiguration
is case-insensitive, not case-sensitive. The request key "foo" differs from
the only stored key "Foo" under case-sensitive comparison, yet the handler
accepts the write and changes the store instead of answering NotSupported. -/
theorem changeConfiguration_case_insensitive_counterexample :
    ("foo" ≠ "Foo")
    ∧ handleRequestChangeConfiguration [⟨"Foo", false, "1", none, false⟩] ⟨"foo", "2"⟩ =
        ⟨[⟨"Foo", false, "2", none, false⟩], ConfigurationStatus.Accepted, 0, 0⟩ := by
  constructor
  · decide
  · decide

/-- C8 amended: the ChangeConfiguration key lookup is case-insensitive: a
request whose key differs from every stored key even under case-insensitive
comparison is treated as unknown (NotSupported, store unchanged, no
restarts), while a request whose key equals some stored key under
case-insensitive comparison is never answered NotSupported. -/
theorem changeConfiguration_key_matching (cfg : List ConfigurationKey)
    (req : ChangeConfigurationRequest) :
    ((∀ c ∈ cfg, lowerChars c.key ≠ lowerChars req.key) →
      handleRequestChangeConfiguration cfg req =
        ⟨cfg, ConfigurationStatus.NotSupported, 0, 0⟩)
    ∧ ((∃ c ∈ cfg, lowerChars c.key = lowerChars req.key) →
      (handleRequestChangeConfiguration cfg req).response ≠
        ConfigurationStatus.NotSupported) := by
  constructor
  · intro h
    have hnone : getConfigurationKey cfg req.key true = none := by
      rw [getConfigurationKey, List.find?_eq_none]
      intro c hc
      simp [configKeyPred, h c hc]
    simp [handleRequestChangeConfiguration, hnone]
  · intro ⟨c, hc, hkey⟩
    have : (getConfigurationKey cfg req.key true).isSome := by
      rw [getConfigurationKey, List.find?_isSome]
      exact ⟨c, hc, by simp [configKeyPred, hkey]⟩
    rcases Option.isSome_iff_exists.mp this with ⟨k, hk⟩
    rw [handleRequestChangeConfiguration, hk]
    by_cases hro : k.readonly <;> by_cases hrb : k.reboot <;> simp [hro, hrb]

/-- Witness for `changeConfiguration_key_matching`: a key with no
case-insensitive match is NotSupported; a case-insensitively matching key
is not NotSupported. -/
theorem changeConfiguration_key_matching_witness :
    handleRequestChangeConfiguration [⟨"Foo", false, "1", none, false⟩] ⟨"bar", "2"⟩ =
      ⟨[⟨"Foo", false, "1", none, false⟩], ConfigurationStatus.NotSupported, 0, 0⟩
    ∧ (handleRequestChangeConfiguration [⟨"Foo", false, "1", none, false⟩]
        ⟨"foo", "2"⟩).response ≠ ConfigurationStatus.NotSupported :=
  ⟨(changeConfiguration_key_matching [⟨"Foo", false, "1", none, false⟩] ⟨"bar", "2"⟩).1
      (by decide),
   (changeConfiguration_key_matching [⟨"Foo", false, "1", none, false⟩] ⟨"foo", "2"⟩).2
      ⟨⟨"Foo", false, "1", none, false⟩, by simp, by decide⟩⟩

/-! ## First-match update lemmas for the configuration store -/

/-- `configKeyPred` only reads the key of an entry, so it is unaffected by a
value update. -/
theorem configKeyPred_update_value (key : String) (ci : Bool) (c : ConfigurationKey)
    (v : String) : configKeyPred key ci { c with value := v } = configKeyPred key ci c := rfl

/-- Updating the first match of an absent predicate changes nothing. -/
theorem updateFirstValue_of_find_eq_none (p : ConfigurationKey → Bool) (v : String) :
    ∀ cfg : List ConfigurationKey, cfg.find? p = none → updateFirstValue p v cfg = cfg := by
  intro cfg
  induction cfg with
  | nil => intro _; rfl
  | cons c rest ih =>
    intro h
    cases hpc : p c with
    | true => rw [List.find?_cons_of_pos _ hpc] at h; exact absurd h (by simp)
    | false =>
      rw [List.find?_cons_of_neg _ (by simp [hpc])] at h
      simp [updateFirstValue, hpc, ih h]

/-- After updating the value of the first `p`-match `k`, a predicate `pa`
that implies `p`, is insensitive to values, and holds at `k` finds exactly
the updated entry. -/
theorem find_updateFirstValue_self {pa p : ConfigurationKey → Bool}
    (hval : ∀ c v, pa { c with value := v } = pa c)
    (himp : ∀ c, pa c = true → p c = true) (v : String) :
    ∀ (cfg : List ConfigurationKey) (k : ConfigurationKey),
      cfg.find? p = some k → pa k = true →
      (updateFirstValue p v cfg).find? pa = some { k with value := v } := by
  intro cfg
  induction cfg with
  | nil => intro k h _; exact absurd h (by simp)
  | cons c rest ih =>
    intro k h hpak
    cases hpc : p c with
    | true =>
      rw [List.find?_cons_of_pos _ hpc] at h
      injection h with h
      subst h
      rw [updateFirstValue, if_pos hpc]
      exact List.find?_cons_of_pos _ (by rw [hval, hpak])
    | false =>
      rw [List.find?_cons_of_neg _ (by simp [hpc])] at h
      have hpac : pa c = false := by
        cases hpac : pa c with
        | true => exact absurd (himp c hpac) (by simp [hpc])
        | false => rfl
      rw [updateFirstValue, if_neg (by simp [hpc])]
      rw [List.find?_cons_of_neg _ (by simp [hpac])]
      exact ih k h hpak

/-- Updating the value of the first `p`-match `m` does not change what a
value-insensitive predicate `pa` with `pa m = false` finds. -/
theorem find_updateFirstValue_other {pa p : ConfigurationKey → Bool}
    (hval : ∀ c v, pa { c with value := v } = pa c) (v : String) :
    ∀ (cfg : List ConfigurationKey) (m : ConfigurationKey),
      cfg.find? p = some m → pa m = false →
      (updateFirstValue p v cfg).find? pa = cfg.find? pa := by
  intro cfg
  induction cfg with
  | nil => intro m h _; exact absurd h (by simp)
  | cons c rest ih =>
    intro m h hpam
    cases hpc : p c with
    | true =>
      rw [List.find?_cons_of_pos _ hpc] at h
      injection h with h
      subst h
      rw [updateFirstValue, if_pos hpc]
      rw [List.find?_cons_of_neg _ (by simp [hval, hpam]),
        List.find?_cons_of_neg _ (by simp [hpam])]
    | false =>
      rw [List.find?_cons_of_neg _ (by simp [hpc])] at h
      rw [updateFirstValue, if_neg (by simp [hpc])]
      cases hpac : pa c with
      | true =>
        rw [List.find?_cons_of_pos _ hpac, List.find?_cons_of_pos _ hpac]
      | false =>
        rw [List.find?_cons_of_neg _ (by simp [hpac]),
          List.find?_cons_of_neg _ (by simp [hpac])]
        exact ih m h hpam

/-- If the first `p`-match also satisfies the stronger predicate `pa`
(with `pa` implying `p`), then it is also the first `pa`-match. -/
theorem find_first_of_imp {pa p : ConfigurationKey → Bool}
    (himp : ∀ c, pa c = true → p c = true) :
    ∀ (cfg : List ConfigurationKey) (k : ConfigurationKey),
      cfg.find? p = some k → pa k = true → cfg.find? pa = some k := by
  intro cfg
  induction cfg with
  | nil => intro k h _; exact absurd h (by simp)
  | cons c rest ih =>
    intro k h hpak
    cases hpc : p c with
    | true =>
      rw [List.find?_cons_of_pos _ hpc] at h
      injection h with h
      subst h
      exact List.find?_cons_of_pos _ hpak
    | false =>
      rw [List.find?_cons_of_neg _ (by simp [hpc])] at h
      have hpac : pa c = false := by
        cases hpac : pa c with
        | true => exact absurd (himp c hpac) (by simp [hpc])
        | false => rfl
      rw [List.find?_cons_of_neg _ (by simp [hpac])]
      exact ih k h hpak

/-- The value stored under a key: the value of the first (case-sensitive)
match, as read back by GetConfiguration. -/
def readValue (cfg : List ConfigurationKey) (key : String) : Option String :=
  (getConfigurationKey cfg key).map (fun c => c.value)

/-- The two heartbeat alias keys read back with the same value (and are
equally present), spec section 3. -/
def aliasKeysSynced (cfg : List ConfigurationKey) : Prop :=
  readValue cfg "HeartbeatInterval" = readValue cfg "HeartBeatInterval"

/-- Any single ChangeConfiguration call preserves the synchronization of
the two heartbeat alias keys. -/
theorem changeConfiguration_preserves_aliasKeysSynced
    (cfg : List ConfigurationKey) (req : ChangeConfigurationRequest)
    (h : aliasKeysSynced cfg) :
    aliasKeysSynced (handleRequestChangeConfiguration cfg req).configurationKey := by
  have hval : ∀ (key : String) (ci : Bool) (c : ConfigurationKey) (v : String),
      configKeyPred key ci { c with value := v } = configKeyPred key ci c := fun _ _ _ _ => rfl
  cases hfind : getConfigurationKey cfg req.key true with
  | none => simpa [handleRequestChangeConfiguration, hfind] using h
  | some k =>
    by_cases hro : k.readonly
    · simpa [handleRequestChangeConfiguration, hfind, hro] using h
    · by_cases hvc : k.value = req.value
      · simpa [handleRequestChangeConfiguration, hfind, hro, hvc] using h
      · have hPk : configKeyPred req.key true k = true := List.find?_some hfind
        have hlk : lowerChars k.key = lowerChars req.key := by
          simpa [configKeyPred] using hPk
        have hlAB : lowerChars "HeartbeatInterval" = lowerChars "HeartBeatInterval" := by decide
        by_cases hkB : k.key = "HeartBeatInterval"
        · have hkA : ¬(k.key = "HeartbeatInterval") := by rw [hkB]; decide
          have hout : (handleRequestChangeConfiguration cfg req).configurationKey =
              updateFirstValue (configKeyPred "HeartbeatInterval" false) req.value
                (updateFirstValue (configKeyPred req.key true) req.value cfg) := by
            simp [handleRequestChangeConfiguration, hfind, hro, hvc, hkB, hkA,
              setConfigurationKeyValue]
          have hlB : lowerChars "HeartBeatInterval" = lowerChars req.key := by
            rw [← hkB]; exact hlk
          have hcsBk : configKeyPred "HeartBeatInterval" false k = true := by
            simp [configKeyPred, hkB]
          have himpB : ∀ c, configKeyPred "HeartBeatInterval" false c = true →
              configKeyPred req.key true c = true := by
            intro c hc
            have hck : c.key = "HeartBeatInterval" := by simpa [configKeyPred] using hc
            simp [configKeyPred, hck, hlB]
          have hcsAk : configKeyPred "HeartbeatInterval" false k = false := by
            simp [configKeyPred, hkB]
          have hfAcfg : ∃ a, cfg.find? (configKeyPred "HeartbeatInterval" false) = some a := by
            have hfBcfg : cfg.find? (configKeyPred "HeartBeatInterval" false) = some k :=
              find_first_of_imp himpB cfg k hfind hcsBk
            rw [aliasKeysSynced, readValue, readValue, getConfigurationKey,
              getConfigurationKey, hfBcfg] at h
            rcases hA : cfg.find? (configKeyPred "HeartbeatInterval" false) with _ | a
            · rw [hA] at h; exact absurd h (by simp)
            · exact ⟨a, rfl⟩
          obtain ⟨a, hfA⟩ := hfAcfg
          have e1 : (updateFirstValue (configKeyPred req.key true) req.value cfg).find?
              (configKeyPred "HeartBeatInterval" false) = some { k with value := req.value } :=
            find_updateFirstValue_self (hval _ _) himpB req.value cfg k hfind hcsBk
          have e2 : (updateFirstValue (configKeyPred req.key true) req.value cfg).find?
              (configKeyPred "HeartbeatInterval" false) = some a := by
            rw [find_updateFirstValue_other (hval _ _) req.value cfg k hfind hcsAk]
            exact hfA
          have hcsAa : configKeyPred "HeartbeatInterval" false a = true := List.find?_some e2
          have hak : a.key = "HeartbeatInterval" := by simpa [configKeyPred] using hcsAa
          have hcsBa : configKeyPred "HeartBeatInterval" false a = false := by
            simp [configKeyPred, hak]
          have e3 : (updateFirstValue (configKeyPred "HeartbeatInterval" false) req.value
              (updateFirstValue (configKeyPred req.key true) req.value cfg)).find?
              (configKeyPred "HeartbeatInterval" false) = some { a with value := req.value } :=
            find_updateFirstValue_self (hval _ _) (fun _ hc => hc) req.value _ a e2 hcsAa
          have e4 : (updateFirstValue (configKeyPred "HeartbeatInterval" false) req.value
              (updateFirstValue (configKeyPred req.key true) req.value cfg)).find?
              (configKeyPred "HeartBeatInterval" false) = some { k with value := req.value } := by
            rw [find_updateFirstValue_other (hval _ _) req.value _ a e2 hcsBa]
            exact e1
          rw [aliasKeysSynced, readValue, readValue, getConfigurationKey, getConfigurationKey,
            hout, e3, e4]
          simp
        · by_cases hkA : k.key = "HeartbeatInterval"
          · have hout : (handleRequestChangeConfiguration cfg req).configurationKey =
                updateFirstValue (configKeyPred "HeartBeatInterval" false) req.value
                  (updateFirstValue (configKeyPred req.key true) req.value cfg) := by
              simp [handleRequestChangeConfiguration, hfind, hro, hvc, hkB, hkA,
                setConfigurationKeyValue]
            have hlA : lowerChars "HeartbeatInterval" = lowerChars req.key := by
              rw [← hkA]; exact hlk
            have hcsAk : configKeyPred "HeartbeatInterval" false k = true := by
              simp [configKeyPred, hkA]
            have himpA : ∀ c, configKeyPred "HeartbeatInterval" false c = true →
                configKeyPred req.key true c = true := by
              intro c hc
              have hck : c.key = "HeartbeatInterval" := by simpa [configKeyPred] using hc
              simp [configKeyPred, hck, hlA]
            have hcsBk : configKeyPred "HeartBeatInterval" false k = false := by
              simp [configKeyPred, hkA]
            have hfBcfg : ∃ b, cfg.find? (configKeyPred "HeartBeatInterval" false) = some b := by
              have hfA2 : cfg.find? (configKeyPred "HeartbeatInterval" false) = some k :=
                find_first_of_imp himpA cfg k hfind hcsAk
              rw [aliasKeysSynced, readValue, readValue, getConfigurationKey,
                getConfigurationKey, hfA2] at h
              rcases hB : cfg.find? (configKeyPred "HeartBeatInterval" false) with _ | b
              · rw [hB] at h; exact absurd h (by simp)
              · exact ⟨b, rfl⟩
            obtain ⟨b, hfB⟩ := hfBcfg
            have e1 : (updateFirstValue (configKeyPred req.key true) req.value cfg).find?
                (configKeyPred "HeartbeatInterval" false) = some { k with value := req.value } :=
              find_updateFirstValue_self (hval _ _) himpA req.value cfg k hfind hcsAk
            have e2 : (updateFirstValue (configKeyPred req.key true) req.value cfg).find?
                (configKeyPred "HeartBeatInterval" false) = some b := by
              rw [find_updateFirstValue_other (hval _ _) req.value cfg k hfind hcsBk]
              exact hfB
            have hcsBb : configKeyPred "HeartBeatInterval" false b = true := List.find?_some e2
            have hbk : b.key = "HeartBeatInterval" := by simpa [configKeyPred] using hcsBb
            have hcsAb : configKeyPred "HeartbeatInterval" false b = false := by
              simp [configKeyPred, hbk]
            have e3 : (updateFirstValue (configKeyPred "HeartBeatInterval" false) req.value
                (updateFirstValue (configKeyPred req.key true) req.value cfg)).find?
                (configKeyPred "HeartBeatInterval" false) = some { b with value := req.value } :=
              find_updateFirstValue_self (hval _ _) (fun _ hc => hc) req.value _ b e2 hcsBb
            have e4 : (updateFirstValue (configKeyPred "HeartBeatInterval" false) req.value
                (updateFirstValue (configKeyPred req.key true) req.value cfg)).find?
                (configKeyPred "HeartbeatInterval" false) = some { k with value := req.value } := by
              rw [find_updateFirstValue_other (hval _ _) req.value _ b e2 hcsAb]
              exact e1
            rw [aliasKeysSynced, readValue, readValue, getConfigurationKey, getConfigurationKey,
              hout, e3, e4]
            simp
          · have hout : (handleRequestChangeConfiguration cfg req).configurationKey =
                updateFirstValue (configKeyPred req.key true) req.value cfg := by
              simp [handleRequestChangeConfiguration, hfind, hro, hvc, hkB, hkA,
                setConfigurationKeyValue]
            have hcsAk : configKeyPred "HeartbeatInterval" false k = false := by
              cases hc : configKeyPred "HeartbeatInterval" false k with
              | true => exact absurd (by simpa [configKeyPred] using hc) hkA
              | false => rfl
            have hcsBk : configKeyPred "HeartBeatInterval" false k = false := by
              cases hc : configKeyPred "HeartBeatInterval" false k with
              | true => exact absurd (by simpa [configKeyPred] using hc) hkB
              | false => rfl
            rw [aliasKeysSynced, readValue, readValue, getConfigurationKey, getConfigurationKey,
              hout, find_updateFirstValue_other (hval _ _) req.value cfg k hfind hcsAk,
              find_updateFirstValue_other (hval _ _) req.value cfg k hfind hcsBk]
            exact h

/-- Core of an accepted alias write: after the case-insensitive write of the
request key (first match `k`, whose stored key is the alias `K1`) followed by
the case-sensitive write of the sibling alias `K2` (first match `s`), both
aliases read back with the written value. -/
theorem find_after_alias_write (K1 K2 rk v : String) (cfg : List ConfigurationKey)
    (k s : ConfigurationKey) (hne : K1 ≠ K2)
    (hfind : cfg.find? (configKeyPred rk true) = some k) (hk1 : k.key = K1)
    (hl1 : lowerChars K1 = lowerChars rk) (hl2 : lowerChars K2 = lowerChars rk)
    (hs : cfg.find? (configKeyPred K2 false) = some s) :
    (updateFirstValue (configKeyPred K2 false) v
        (updateFirstValue (configKeyPred rk true) v cfg)).find?
      (configKeyPred K1 false) = some { k with value := v }
    ∧ (updateFirstValue (configKeyPred K2 false) v
        (updateFirstValue (configKeyPred rk true) v cfg)).find?
      (configKeyPred K2 false) = some { s with value := v } := by
  have hval : ∀ (key : String) (ci : Bool) (c : ConfigurationKey) (w : String),
      configKeyPred key ci { c with value := w } = configKeyPred key ci c := fun _ _ _ _ => rfl
  have himp1 : ∀ c, configKeyPred K1 false c = true → configKeyPred rk true c = true := by
    intro c hc
    have hck : c.key = K1 := by simpa [configKeyPred] using hc
    simp [configKeyPred, hck, hl1]
  have hcs1k : configKeyPred K1 false k = true := by simp [configKeyPred, hk1]
  have hcs2k : configKeyPred K2 false k = false := by
    simp [configKeyPred, hk1]
    exact hne
  have e1 : (updateFirstValue (configKeyPred rk true) v cfg).find?
      (configKeyPred K1 false) = some { k with value := v } :=
    find_updateFirstValue_self (hval _ _) himp1 v cfg k hfind hcs1k
  have e2 : (updateFirstValue (configKeyPred rk true) v cfg).find?
      (configKeyPred K2 false) = some s := by
    rw [find_updateFirstValue_other (hval _ _) v cfg k hfind hcs2k]
    exact hs
  have hcs2s : configKeyPred K2 false s = true := List.find?_some e2
  have hsk : s.key = K2 := by simpa [configKeyPred] using hcs2s
  have hcs1s : configKeyPred K1 false s = false := by
    simp [configKeyPred, hsk]
    exact fun hh => hne hh.symm
  constructor
  · rw [find_updateFirstValue_other (hval _ _) v _ s e2 hcs1s]
    exact e1
  · exact find_updateFirstValue_self (hval _ _) (fun _ hc => hc) v _ s e2 hcs2s

/-- C3: for every sequence of ChangeConfiguration writes, the two heartbeat
alias keys stay synchronized (after each write they read back equal); and a
single ChangeConfiguration that changes the value of either alias writes
both keys, restarts the heartbeat exactly once, answers Accepted, and a
subsequent GetConfiguration of either alias returns the written value. -/
theorem heartbeat_alias_synchronization :
    (∀ (cfg : List ConfigurationKey) (reqs : List ChangeConfigurationRequest),
      aliasKeysSynced cfg →
      aliasKeysSynced (reqs.foldl
        (fun c r => (handleRequestChangeConfiguration c r).configurationKey) cfg))
    ∧ (∀ (cfg : List ConfigurationKey) (req : ChangeConfigurationRequest)
        (k a b : ConfigurationKey),
        (req.key = "HeartbeatInterval" ∨ req.key = "HeartBeatInterval") →
        getConfigurationKey cfg req.key true = some k →
        (k.key = "HeartbeatInterval" ∨ k.key = "HeartBeatInterval") →
        k.readonly = false → k.reboot = false → k.value ≠ req.value →
        getConfigurationKey cfg "HeartbeatInterval" = some a →
        getConfigurationKey cfg "HeartBeatInterval" = some b →
        effectiveVisible a = true → effectiveVisible b = true →
        (handleRequestChangeConfiguration cfg req).response = ConfigurationStatus.Accepted
        ∧ (handleRequestChangeConfiguration cfg req).heartbeatRestarts = 1
        ∧ readValue (handleRequestChangeConfiguration cfg req).configurationKey
            "HeartbeatInterval" = some req.value
        ∧ readValue (handleRequestChangeConfiguration cfg req).configurationKey
            "HeartBeatInterval" = some req.value
        ∧ (handleRequestGetConfiguration
            (handleRequestChangeConfiguration cfg req).configurationKey
            (some ["HeartbeatInterval"])).configurationKey =
            [("HeartbeatInterval", a.readonly, req.value)]
        ∧ (handleRequestGetConfiguration
            (handleRequestChangeConfiguration cfg req).configurationKey
            (some ["HeartBeatInterval"])).configurationKey =
            [("HeartBeatInterval", b.readonly, req.value)]) := by
  constructor
  · intro cfg reqs
    induction reqs generalizing cfg with
    | nil => intro h; simpa using h
    | cons r rs ih =>
      intro h
      rw [List.foldl_cons]
      exact ih _ (changeConfiguration_preserves_aliasKeysSynced cfg r h)
  · intro cfg req k a b _ hfind hk hro hrb hvc ha hb hva hvb
    have hPk : configKeyPred req.key true k = true := List.find?_some hfind
    have hlk : lowerChars k.key = lowerChars req.key := by simpa [configKeyPred] using hPk
    have hlAB : lowerChars "HeartbeatInterval" = lowerChars "HeartBeatInterval" := by decide
    have hroF : k.readonly = false := hro
    have hrbF : k.reboot = false := hrb
    cases hk with
    | inl hkA =>
      have hkB : ¬(k.key = "HeartBeatInterval") := by rw [hkA]; decide
      have hout : (handleRequestChangeConfiguration cfg req).configurationKey =
          updateFirstValue (configKeyPred "HeartBeatInterval" false) req.value
            (updateFirstValue (configKeyPred req.key true) req.value cfg) := by
        simp [handleRequestChangeConfiguration, hfind, hroF, hvc, hkA, hkB,
          setConfigurationKeyValue]
      have hl1 : lowerChars "HeartbeatInterval" = lowerChars req.key := by rw [← hkA]; exact hlk
      have hl2 : lowerChars "HeartBeatInterval" = lowerChars req.key := by
        rw [← hlAB]; exact hl1
      have hcore := find_after_alias_write "HeartbeatInterval" "HeartBeatInterval"
        req.key req.value cfg k b (by decide) hfind hkA hl1 hl2 hb
      have hak : a = k := by
        have himp1 : ∀ c, configKeyPred "HeartbeatInterval" false c = true →
            configKeyPred req.key true c = true := by
          intro c hc
          have hck : c.key = "HeartbeatInterval" := by simpa [configKeyPred] using hc
          simp [configKeyPred, hck, hl1]
        have : cfg.find? (configKeyPred "HeartbeatInterval" false) = some k :=
          find_first_of_imp himp1 cfg k hfind (by simp [configKeyPred, hkA])
        rw [getConfigurationKey, this] at ha
        exact (Option.some.inj ha).symm
      have hbk : b.key = "HeartBeatInterval" := by
        have : configKeyPred "HeartBeatInterval" false b = true := List.find?_some hb
        simpa [configKeyPred] using this
      refine ⟨?_, ?_, ?_, ?_, ?_, ?_⟩
      · simp [handleRequestChangeConfiguration, hfind, hroF, hrbF, hvc]
      · simp [handleRequestChangeConfiguration, hfind, hroF, hvc, hkA, hkB]
      · rw [readValue, getConfigurationKey, hout, hcore.1]; rfl
      · rw [readValue, getConfigurationKey, hout, hcore.2]; rfl
      · rw [hout]
        simp only [handleRequestGetConfiguration, List.foldl_cons, List.foldl_nil,
          getConfigurationKey, hcore.1]
        subst hak
        split
        · simp [hkA]
        · rename_i hcond
          rw [effectiveVisible] at hva
          exact absurd hva hcond
      · rw [hout]
        simp only [handleRequestGetConfiguration, List.foldl_cons, List.foldl_nil,
          getConfigurationKey, hcore.2]
        split
        · simp [hbk]
        · rename_i hcond
          rw [effectiveVisible] at hvb
          exact absurd hvb hcond
    | inr hkB =>
      have hkA : ¬(k.key = "HeartbeatInterval") := by rw [hkB]; decide
      have hout : (handleRequestChangeConfiguration cfg req).configurationKey =
          updateFirstValue (configKeyPred "HeartbeatInterval" false) req.value
            (updateFirstValue (configKeyPred req.key true) req.value cfg) := by
        simp [handleRequestChangeConfiguration, hfind, hroF, hvc, hkA, hkB,
          setConfigurationKeyValue]
      have hl1 : lowerChars "HeartBeatInterval" = lowerChars req.key := by rw [← hkB]; exact hlk
      have hl2 : lowerChars "HeartbeatInterval" = lowerChars req.key := by
        rw [hlAB]; exact hl1
      have hcore := find_after_alias_write "HeartBeatInterval" "HeartbeatInterval"
        req.key req.value cfg k a (by decide) hfind hkB hl1 hl2 ha
      have hbk : b = k := by
        have himp1 : ∀ c, configKeyPred "HeartBeatInterval" false c = true →
            configKeyPred req.key true c = true := by
          intro c hc
          have hck : c.key = "HeartBeatInterval" := by simpa [configKeyPred] using hc
          simp [configKeyPred, hck, hl1]
        have : cfg.find? (configKeyPred "HeartBeatInterval" false) = some k :=
          find_first_of_imp himp1 cfg k hfind (by simp [configKeyPred, hkB])
        rw [getConfigurationKey, this] at hb
        exact (Option.some.inj hb).symm
      have hak : a.key = "HeartbeatInterval" := by
        have : configKeyPred "HeartbeatInterval" false a = true := List.find?_some ha
        simpa [configKeyPred] using this
      refine ⟨?_, ?_, ?_, ?_, ?_, ?_⟩
      · simp [handleRequestChangeConfiguration, hfind, hroF, hrbF, hvc]
      · simp [handleRequestChangeConfiguration, hfind, hroF, hvc, hkA, hkB]
      · rw [readValue, getConfigurationKey, hout, hcore.2]; rfl
      · rw [readValue, getConfigurationKey, hout, hcore.1]; rfl
      · rw [hout]
        simp only [handleRequestGetConfiguration, List.foldl_cons, List.foldl_nil,
          getConfigurationKey, hcore.2]
        split
        · simp [hak]
        · rename_i hcond
          rw [effectiveVisible] at hva
          exact absurd hva hcond
      · rw [hout]
        simp only [handleRequestGetConfiguration, List.foldl_cons, List.foldl_nil,
          getConfigurationKey, hcore.1]
        subst hbk
        split
        · simp [hkB]
        · rename_i hcond
          rw [effectiveVisible] at hvb
          exact absurd hvb hcond

/-- Witness for `heartbeat_alias_synchronization`: on a concrete store with
both aliases at "60", writing "30" through "HeartBeatInterval" is Accepted,
reads back "30" through "HeartbeatInterval", and a sequence of such writes
keeps the aliases synchronized. -/
theorem heartbeat_alias_synchronization_witness :
    aliasKeysSynced ([⟨"HeartBeatInterval", "30"⟩].foldl
      (fun c r => (handleRequestChangeConfiguration c r).configurationKey)
      [⟨"HeartbeatInterval", false, "60", none, false⟩,
       ⟨"HeartBeatInterval", false, "60", none, false⟩])
    ∧ (handleRequestChangeConfiguration
        [⟨"HeartbeatInterval", false, "60", none, false⟩,
         ⟨"HeartBeatInterval", false, "60", none, false⟩]
        ⟨"HeartBeatInterval", "30"⟩).response = ConfigurationStatus.Accepted
    ∧ (handleRequestGetConfiguration
        (handleRequestChangeConfiguration
          [⟨"HeartbeatInterval", false, "60", none, false⟩,
           ⟨"HeartBeatInterval", false, "60", none, false⟩]
          ⟨"HeartBeatInterval", "30"⟩).configurationKey
        (some ["HeartbeatInterval"])).configurationKey = [("HeartbeatInterval", false, "30")] := by
  have h2 := heartbeat_alias_synchronization.2
    [⟨"HeartbeatInterval", false, "60", none, false⟩,
     ⟨"HeartBeatInterval", false, "60", none, false⟩]
    ⟨"HeartBeatInterval", "30"⟩
    ⟨"HeartbeatInterval", false, "60", none, false⟩
    ⟨"HeartbeatInterval", false, "60", none, false⟩
    ⟨"HeartBeatInterval", false, "60", none, false⟩
    (Or.inr rfl) (by decide) (Or.inl rfl) rfl rfl (by decide) (by decide) (by decide) rfl rfl
  have h1 := heartbeat_alias_synchronization.1
    [⟨"HeartbeatInterval", false, "60", none, false⟩,
     ⟨"HeartBeatInterval", false, "60", none, false⟩]
    [⟨"HeartBeatInterval", "30"⟩] (by unfold aliasKeysSynced; rfl)
  exact ⟨h1, h2.1, h2.2.2.2.2.1⟩

/-! ## ClearChargingProfile -/

/-- A ClearChargingProfile request payload; every field is optional. -/
structure ClearChargingProfileRequest where
  id : Option Nat := none
  connectorId : Option Nat := none
  chargingProfilePurpose : Option ChargingProfilePurposeType := none
  stackLevel : Option Nat := none
deriving DecidableEq, Repr

/-- `ClearChargingProfileStatus` of the response. -/
inductive ClearChargingProfileStatus
  | Accepted
  | Unknown
deriving DecidableEq, Repr

/-- The per-profile matching test of the connectorId-less branch
(AbstractUIService.ts lines 518-539). JS semantics: `===` on optional
fields is `Option` equality; `!commandPayload.chargingProfilePurpose` is
absence; `!chargingProfile.stackLevel` is absence or zero (a number is
falsy at 0). -/
def clearChargingProfileMatch (req : ClearChargingProfileRequest)
    (cp : OCPP16ChargingProfile) : Bool :=
  (cp.chargingProfileId == req.id)
  || (!req.chargingProfilePurpose.isSome && cp.stackLevel == req.stackLevel)
  || ((cp.stackLevel == none || cp.stackLevel == some 0)
      && cp.chargingProfilePurpose == req.chargingProfilePurpose)
  || (cp.stackLevel == req.stackLevel
      && cp.chargingProfilePurpose == req.chargingProfilePurpose)

/-- JS assignment `arr[index] = {}` on the charging-profile array of the
request connector: in range it replaces the entry; past the end it extends
the array (holes modelled as empty profiles). -/
def setProfileAt (l : List OCPP16ChargingProfile) (i : Nat) :
    List OCPP16ChargingProfile :=
  if i < l.length then l.set i emptyChargingProfile
  else l ++ List.replicate (i + 1 - l.length) emptyChargingProfile

/-- One pass of the connectorId-less loop body over the snapshot of one
connector's profile list (`forEach` with index). Every match writes an
empty profile into the profile array of the connector `rid` looked up from
the request (`connectorStatus` in the source aliases that connector), and
raises the `clearedCP` flag. -/
def clearProfilesPass (rid : Nat) (req : ClearChargingProfileRequest)
    (profiles : List OCPP16ChargingProfile) (start : ChargingStation × Bool) :
    ChargingStation × Bool :=
  profiles.enum.foldl
    (fun acc pi =>
      if clearChargingProfileMatch req pi.2 then
        (updateConnector acc.1 rid
          (fun c => { c with chargingProfiles := setProfileAt c.chargingProfiles pi.1 }), true)
      else acc)
    start

/-- `handleRequestClearChargingProfile` (AbstractUIService.ts lines
478-558). The SmartCharging feature gate, then the connector lookup of the
request connectorId with an early Unknown return when it finds nothing
(in particular whenever `connectorId` is absent), then the truthy-connector
clear-all branch, then the connectorId-less matching loop (reachable only
with `connectorId = 0`). -/
def handleRequestClearChargingProfile (st : ChargingStation)
    (req : ClearChargingProfileRequest) : ChargingStation × ClearChargingProfileStatus :=
  if !(checkFeatureProfile st OCPP16SupportedFeatureProfiles.SmartCharging) then
    (st, ClearChargingProfileStatus.Unknown)
  else
    match req.connectorId with
    | none => (st, ClearChargingProfileStatus.Unknown)
    | some rid =>
      match getConnectorStatus st rid with
      | none => (st, ClearChargingProfileStatus.Unknown)
      | some connectorStatus =>
        if rid ≠ 0 ∧ ¬connectorStatus.chargingProfiles.isEmpty then
          (updateConnector st rid (fun c => { c with chargingProfiles := [] }),
           ClearChargingProfileStatus.Accepted)
        else if rid = 0 then
          let result := st.connectors.foldl
            (fun acc p =>
              match getConnectorStatus acc.1 p.1 with
              | some cs =>
                if ¬cs.chargingProfiles.isEmpty then
                  clearProfilesPass rid req cs.chargingProfiles acc
                else acc
              | none => acc)
            (st, false)
          if result.2 then (result.1, ClearChargingProfileStatus.Accepted)
          else (result.1, ClearChargingProfileStatus.Unknown)
        else (st, ClearChargingProfileStatus.Unknown)

/-- The concrete station of the C2 failing input: SmartCharging enabled,
connectors 1 and 2 each holding a charging profile with id 7. -/
def clearProfileStation : ChargingStation :=
  { connectors :=
      [(0, {}),
       (1, { chargingProfiles :=
              [{ chargingProfileId := some 7, stackLevel := some 1,
                 chargingProfilePurpose := some ChargingProfilePurposeType.TxDefaultProfile }] }),
       (2, { chargingProfiles :=
              [{ chargingProfileId := some 7, stackLevel := some 1,
                 chargingProfilePurpose := some ChargingProfilePurposeType.TxDefaultProfile }] })],
    supportedFeatureProfiles := [OCPP16SupportedFeatureProfiles.SmartCharging] }

/-- C2 (failing input): with SmartCharging enabled and profiles with id 7
stored on connectors 1 and 2, ClearChargingProfile with id 7 and no
connectorId answers Unknown and clears nothing: the unknown-connector guard
returns before the connectorId-less matching loop is reached, because the
lookup of an absent connector id finds no connector. The claim expects both
profiles cleared and Accepted. -/
theorem clearChargingProfile_absent_connectorId_clears_nothing :
    handleRequestClearChargingProfile clearProfileStation
      { id := some 7 } = (clearProfileStation, ClearChargingProfileStatus.Unknown)
    ∧ (getConnectorStatus clearProfileStation 1).map
        (fun c => c.chargingProfiles.length) = some 1
    ∧ (getConnectorStatus clearProfileStation 2).map
        (fun c => c.chargingProfiles.length) = some 1 := by
  refine ⟨rfl, rfl, rfl⟩

/-! ## UnlockConnector -/

/-- `UnlockStatus` of an UnlockConnector response. -/
inductive UnlockStatus
  | Unlocked
  | UnlockFailed
  | NotSupported
deriving DecidableEq, Repr

/-- `handleRequestUnlockConnector` (AbstractUIService.ts lines 264-320).
`stopStatus` is the `idTagInfo?.status` of the Central-System response to
the emitted StopTransaction. Returns `none` on the JS TypeError raised by
the status write when the connector does not exist. -/
def handleRequestUnlockConnector (st : ChargingStation)
    (stopStatus : Option OCPP16AuthorizationStatus) (connectorId : Nat) :
    Option (ChargingStation × UnlockStatus × List OutboundRequest) :=
  if connectorId = 0 then some (st, UnlockStatus.NotSupported, [])
  else
    match getConnectorStatus st connectorId with
    | some c =>
      if c.transactionStarted then
        let transactionId := c.transactionId
        let meterEvents :=
          if st.beginEndMeterValues && st.ocppStrictCompliance
              && !st.outOfOrderEndMeterValues then
            [OutboundRequest.meterValues connectorId transactionId]
          else []
        let events := meterEvents ++
          [OutboundRequest.stopTransaction transactionId
            (getEnergyActiveImportRegisterByTransactionId st transactionId)
            (getTransactionIdTag st transactionId)
            (some OCPP16StopTransactionReason.UnlockCommand)]
        if stopStatus = some OCPP16AuthorizationStatus.Accepted then
          some (st, UnlockStatus.Unlocked, events)
        else some (st, UnlockStatus.UnlockFailed, events)
      else
        some (updateConnector st connectorId
            (fun c2 => { c2 with status := OCPP16ChargePointStatus.Available }),
          UnlockStatus.Unlocked,
          [OutboundRequest.statusNotification connectorId OCPP16ChargePointStatus.Available])
    | none => none

/-- C5: UnlockConnector on connector 0 answers NotSupported regardless of
any other state; on a connector with a running transaction it emits a
StopTransaction with reason UnlockCommand and answers Unlocked exactly when
the stop response is Accepted (UnlockFailed otherwise); on a connector
without a running transaction it emits StatusNotification(Available), sets
the connector status to Available and answers Unlocked. -/
theorem unlockConnector_behaviour (st : ChargingStation)
    (stopStatus : Option OCPP16AuthorizationStatus) (connectorId : Nat) :
    (connectorId = 0 →
      handleRequestUnlockConnector st stopStatus connectorId =
        some (st, UnlockStatus.NotSupported, []))
    ∧ (∀ c, connectorId ≠ 0 → getConnectorStatus st connectorId = some c →
        c.transactionStarted = true →
        ∃ events,
          handleRequestUnlockConnector st stopStatus connectorId =
            some (st,
              if stopStatus = some OCPP16AuthorizationStatus.Accepted then
                UnlockStatus.Unlocked
              else UnlockStatus.UnlockFailed, events)
          ∧ events.filter
              (fun e => match e with
                | OutboundRequest.stopTransaction _ _ _ _ => true
                | _ => false) =
            [OutboundRequest.stopTransaction c.transactionId
              (getEnergyActiveImportRegisterByTransactionId st c.transactionId)
              (getTransactionIdTag st c.transactionId)
              (some OCPP16StopTransactionReason.UnlockCommand)])
    ∧ (∀ c, connectorId ≠ 0 → getConnectorStatus st connectorId = some c →
        c.transactionStarted = false →
        handleRequestUnlockConnector st stopStatus connectorId =
          some (updateConnector st connectorId
              (fun c2 => { c2 with status := OCPP16ChargePointStatus.Available }),
            UnlockStatus.Unlocked,
            [OutboundRequest.statusNotification connectorId
              OCPP16ChargePointStatus.Available])) := by
  refine ⟨?_, ?_, ?_⟩
  · intro h
    simp [handleRequestUnlockConnector, h]
  · intro c hne hc hstarted
    refine ⟨(if st.beginEndMeterValues && st.ocppStrictCompliance
        && !st.outOfOrderEndMeterValues then
        [OutboundRequest.meterValues connectorId c.transactionId] else []) ++
      [OutboundRequest.stopTransaction c.transactionId
        (getEnergyActiveImportRegisterByTransactionId st c.transactionId)
        (getTransactionIdTag st c.transactionId)
        (some OCPP16StopTransactionReason.UnlockCommand)], ?_, ?_⟩
    · by_cases hs : stopStatus = some OCPP16AuthorizationStatus.Accepted <;>
        simp [handleRequestUnlockConnector, hne, hc, hstarted, hs]
    · by_cases hmv : st.beginEndMeterValues && st.ocppStrictCompliance
          && !st.outOfOrderEndMeterValues <;>
        simp [hmv, List.filter]
  · intro c hne hc hstarted
    simp [handleRequestUnlockConnector, hne, hc, hstarted]

/-- The connector with a running transaction used by the UnlockConnector
witness. -/
def unlockWitnessConnector : ConnectorStatus :=
  { transactionStarted := true, transactionId := some 5, transactionIdTag := some "T",
    transactionEnergyActiveImportRegisterValue := 9 }

/-- The station used by the UnlockConnector witness. -/
def unlockWitnessStation : ChargingStation :=
  { connectors := [(0, {}), (1, unlockWitnessConnector)] }

/-- Witness for `unlockConnector_behaviour`: a concrete station with a
running transaction on connector 1 and a rejected stop; unlocking
connector 0 is NotSupported, unlocking connector 1 emits the stop with
reason UnlockCommand and fails. -/
theorem unlockConnector_behaviour_witness :
    handleRequestUnlockConnector unlockWitnessStation
      (some OCPP16AuthorizationStatus.Invalid) 0 =
      some (unlockWitnessStation, UnlockStatus.NotSupported, [])
    ∧ ∃ events,
        handleRequestUnlockConnector unlockWitnessStation
          (some OCPP16AuthorizationStatus.Invalid) 1 =
          some (unlockWitnessStation, UnlockStatus.UnlockFailed, events)
        ∧ events.filter
            (fun e => match e with
              | OutboundRequest.stopTransaction _ _ _ _ => true
              | _ => false) =
          [OutboundRequest.stopTransaction (some 5) (some 9) (some "T")
            (some OCPP16StopTransactionReason.UnlockCommand)] := by
  constructor
  · exact (unlockConnector_behaviour unlockWitnessStation
      (some OCPP16AuthorizationStatus.Invalid) 0).1 rfl
  · have h := (unlockConnector_behaviour unlockWitnessStation
      (some OCPP16AuthorizationStatus.Invalid) 1).2.1 unlockWitnessConnector
      (by decide) (by decide) rfl
    obtain ⟨events, h1, h2⟩ := h
    exact ⟨events, by simpa using h1, by simpa using h2⟩

/-! ## Generic list lemmas shared by the transaction handlers -/

/-- `find?` only sees predicate values, so it commutes with a map that the
predicate cannot observe. -/
theorem find?_map_of_pred_invariant {α : Type} {g : α → α} {p : α → Bool}
    (hinv : ∀ x, p (g x) = p x) :
    ∀ l : List α, (l.map g).find? p = (l.find? p).map g := by
  intro l
  induction l with
  | nil => rfl
  | cons a t ih =>
    cases hpa : p a with
    | true =>
      rw [List.map_cons, List.find?_cons_of_pos _ (by rw [hinv]; exact hpa),
        List.find?_cons_of_pos _ hpa]
      rfl
    | false =>
      rw [List.map_cons, List.find?_cons_of_neg _ (by simp [hinv, hpa]),
        List.find?_cons_of_neg _ (by simp [hpa]), ih]

/-- `find?` with predicates that agree on the members of the list. -/
theorem find?_congr_mem {α : Type} {p q : α → Bool} :
    ∀ l : List α, (∀ x ∈ l, p x = q x) → l.find? p = l.find? q := by
  intro l
  induction l with
  | nil => intro _; rfl
  | cons a t ih =>
    intro h
    have ha := h a (by simp)
    cases hpa : p a with
    | true =>
      rw [List.find?_cons_of_pos _ hpa, List.find?_cons_of_pos _ (by rw [← ha]; exact hpa)]
    | false =>
      rw [List.find?_cons_of_neg _ (by simp [hpa]),
        List.find?_cons_of_neg _ (by simp [← ha, hpa])]
      exact ih (fun x hx => h x (by simp [hx]))

/-- With pairwise distinct keys, the first-key search of the key of a list
entry returns exactly that entry. -/
theorem find_key_of_nodup {β : Type} :
    ∀ l : List (Nat × β), (l.map Prod.fst).Nodup →
      ∀ p ∈ l, l.find? (fun q => q.1 == p.1) = some p := by
  intro l
  induction l with
  | nil => intro _ p hp; exact absurd hp (by simp)
  | cons a t ih =>
    intro hnd p hp
    rcases List.mem_cons.mp hp with hp2 | hp2
    · subst hp2
      rw [List.find?_cons_of_pos _ (by simp)]
    · have hne : a.1 ≠ p.1 := by
        intro he
        have hmem : p.1 ∈ t.map Prod.fst := List.mem_map_of_mem Prod.fst hp2
        rw [List.map_cons] at hnd
        exact (List.nodup_cons.mp hnd).1 (he ▸ hmem)
      rw [List.find?_cons_of_neg _ (by simp [hne])]
      exact ih (by rw [List.map_cons] at hnd; exact (List.nodup_cons.mp hnd).2) p hp2

/-- With pairwise distinct connector ids, the lookup of the id of a map
entry returns exactly that entry. -/
theorem getConnectorStatus_of_nodup (st : ChargingStation)
    (hnd : (st.connectors.map Prod.fst).Nodup) :
    ∀ p ∈ st.connectors, getConnectorStatus st p.1 = some p.2 := by
  intro p hp
  rw [getConnectorStatus, find_key_of_nodup st.connectors hnd p hp]
  rfl

/-- `getConnectorStatus` after mutating the connector `j`. -/
theorem getConnectorStatus_updateConnector (st : ChargingStation) (j : Nat)
    (f : ConnectorStatus → ConnectorStatus) (i : Nat) :
    getConnectorStatus (updateConnector st j f) i =
      if i = j then (getConnectorStatus st i).map f else getConnectorStatus st i := by
  rw [getConnectorStatus.eq_def, getConnectorStatus.eq_def, updateConnector]
  rcases st with ⟨conns, rest⟩
  simp only
  clear rest
  induction conns with
  | nil => cases Decidable.em (i = j) with
    | inl h => simp [h]
    | inr h => simp [h]
  | cons a t ih =>
    by_cases hij : i = j
    · subst hij
      by_cases hai : a.1 = i
      · rw [List.map_cons, if_pos hai]
        rw [List.find?_cons_of_pos _ (by simp [hai]), List.find?_cons_of_pos _ (by simp [hai])]
        simp
      · rw [List.map_cons, if_neg hai]
        rw [List.find?_cons_of_neg _ (by simp [hai]), List.find?_cons_of_neg _ (by simp [hai])]
        simpa [hai] using ih
    · by_cases hai : a.1 = i
      · by_cases haj : a.1 = j
        · exact absurd (hai.symm.trans haj) hij
        · rw [List.map_cons, if_neg haj]
          rw [List.find?_cons_of_pos _ (by simp [hai]), List.find?_cons_of_pos _ (by simp [hai])]
          simp [hij]
      · by_cases haj : a.1 = j
        · rw [List.map_cons, if_pos haj]
          rw [List.find?_cons_of_neg _ (by simp [hai]), List.find?_cons_of_neg _ (by simp [hai])]
          simpa [hij] using ih
        · rw [List.map_cons, if_neg haj]
          rw [List.find?_cons_of_neg _ (by simp [hai]), List.find?_cons_of_neg _ (by simp [hai])]
          simpa [hij] using ih

/-! ## RemoteStopTransaction -/

/-- Accepted/Rejected of the `DefaultResponse` shape. -/
inductive DefaultStatus
  | Accepted
  | Rejected
deriving DecidableEq, Repr

/-- The loop condition of `handleRequestRemoteStopTransaction`:
`connectorId > 0 && getConnectorStatus(connectorId)?.transactionId ===
transactionId`. -/
def remoteStopPred (st : ChargingStation) (tid : Nat) (q : Nat × ConnectorStatus) : Bool :=
  q.1 != 0 && ((getConnectorStatus st q.1).bind (fun c => c.transactionId) == some tid)

/-- The body of `handleRequestRemoteStopTransaction` at the first matching
connector: StatusNotification(Finishing), status mutation, the optional
transaction-end MeterValues, then StopTransaction(transactionId,
meterStop = register, idTag) with no reason field. -/
def remoteStopBody (st : ChargingStation) (tid : Nat) (id : Nat) :
    ChargingStation × DefaultStatus × List OutboundRequest :=
  let st1 := updateConnector st id
    (fun c => { c with status := OCPP16ChargePointStatus.Finishing })
  let meterEvents :=
    if st1.beginEndMeterValues && st1.ocppStrictCompliance
        && !st1.outOfOrderEndMeterValues then
      [OutboundRequest.meterValues id (some tid)]
    else []
  (st1, DefaultStatus.Accepted,
    [OutboundRequest.statusNotification id OCPP16ChargePointStatus.Finishing] ++ meterEvents ++
    [OutboundRequest.stopTransaction (some tid)
      (getEnergyActiveImportRegisterByTransactionId st1 (some tid))
      (getTransactionIdTag st1 (some tid)) none])

/-- The `for (const connectorId of this.chargingStation.connectors.keys())`
loop of `handleRequestRemoteStopTransaction`: the handler returns at the
first matching connector; without a match it answers Rejected with no
emission. -/
def remoteStopLoop (st : ChargingStation) (tid : Nat) :
    List (Nat × ConnectorStatus) → ChargingStation × DefaultStatus × List OutboundRequest
  | [] => (st, DefaultStatus.Rejected, [])
  | q :: rest =>
    if remoteStopPred st tid q then remoteStopBody st tid q.1
    else remoteStopLoop st tid rest

/-- `handleRequestRemoteStopTransaction` (AbstractUIService.ts lines
815-872). -/
def handleRequestRemoteStopTransaction (st : ChargingStation) (tid : Nat) :
    ChargingStation × DefaultStatus × List OutboundRequest :=
  remoteStopLoop st tid st.connectors

/-- Without a matching connector the loop answers Rejected and emits
nothing. -/
theorem remoteStopLoop_of_no_match (st : ChargingStation) (tid : Nat) :
    ∀ l, (∀ q ∈ l, remoteStopPred st tid q = false) →
      remoteStopLoop st tid l = (st, DefaultStatus.Rejected, []) := by
  intro l
  induction l with
  | nil => intro _; rfl
  | cons q rest ih =>
    intro h
    rw [remoteStopLoop, if_neg (by simp [h q (by simp)])]
    exact ih (fun x hx => h x (by simp [hx]))

/-- The loop runs the body at the first matching connector. -/
theorem remoteStopLoop_of_find (st : ChargingStation) (tid : Nat) :
    ∀ l p, l.find? (remoteStopPred st tid) = some p →
      remoteStopLoop st tid l = remoteStopBody st tid p.1 := by
  intro l
  induction l with
  | nil => intro p h; exact absurd h (by simp)
  | cons q rest ih =>
    intro p h
    cases hq : remoteStopPred st tid q with
    | true =>
      rw [List.find?_cons_of_pos _ hq] at h
      injection h with h
      subst h
      rw [remoteStopLoop, if_pos hq]
    | false =>
      rw [List.find?_cons_of_neg _ (by simp [hq])] at h
      rw [remoteStopLoop, if_neg (by simp [hq])]
      exact ih p h

/-- C6: RemoteStopTransaction with a connector of id > 0 holding the
transaction id sets that connector to Finishing, emits exactly one
StopTransaction carrying the transaction id, the connector energy register
as meterStop and the transaction idTag, and answers Accepted; without a
matching connector it answers Rejected with no emission and an unchanged
station. -/
theorem remoteStopTransaction_behaviour (st : ChargingStation) (tid : Nat)
    (hnd : (st.connectors.map Prod.fst).Nodup) :
    ((∀ p ∈ st.connectors, p.1 = 0 ∨ p.2.transactionId ≠ some tid) →
      handleRequestRemoteStopTransaction st tid = (st, DefaultStatus.Rejected, []))
    ∧ (∀ p, st.connectors.find?
          (fun q => q.1 != 0 && (q.2.transactionId == some tid)) = some p →
        (handleRequestRemoteStopTransaction st tid).2.1 = DefaultStatus.Accepted
        ∧ (getConnectorStatus (handleRequestRemoteStopTransaction st tid).1 p.1).map
            (fun c => c.status) = some OCPP16ChargePointStatus.Finishing
        ∧ (handleRequestRemoteStopTransaction st tid).2.2.filter
            (fun e => match e with
              | OutboundRequest.stopTransaction _ _ _ _ => true
              | _ => false) =
          [OutboundRequest.stopTransaction (some tid)
            (some p.2.transactionEnergyActiveImportRegisterValue)
            p.2.transactionIdTag none]) := by
  have hcongr : ∀ q ∈ st.connectors,
      remoteStopPred st tid q = (q.1 != 0 && (q.2.transactionId == some tid)) := by
    intro q hq
    rw [remoteStopPred, getConnectorStatus_of_nodup st hnd q hq]
    rfl
  constructor
  · intro h
    apply remoteStopLoop_of_no_match st tid st.connectors
    intro q hq
    rw [hcongr q hq]
    rcases h q hq with h0 | hneq
    · simp [h0]
    · simp [hneq]
  · intro p hfind
    have hfind2 : st.connectors.find? (remoteStopPred st tid) = some p := by
      rw [find?_congr_mem st.connectors hcongr]
      exact hfind
    have hrun : handleRequestRemoteStopTransaction st tid = remoteStopBody st tid p.1 :=
      remoteStopLoop_of_find st tid st.connectors p hfind2
    have hpmem : p ∈ st.connectors := List.mem_of_find?_eq_some hfind2
    have hptid : p.2.transactionId = some tid := by
      have := List.find?_some hfind
      simp only [Bool.and_eq_true, beq_iff_eq] at this
      exact this.2
    have hmap : (updateConnector st p.1
        (fun c => { c with status := OCPP16ChargePointStatus.Finishing })).connectors.find?
          (fun q => q.1 != 0 && q.2.transactionId == some tid) =
        some (p.1, { p.2 with status := OCPP16ChargePointStatus.Finishing }) := by
      rw [updateConnector]
      have hinv : ∀ x : Nat × ConnectorStatus,
          (fun q => q.1 != 0 && q.2.transactionId == some tid)
            ((fun q => if q.1 = p.1 then
              (q.1, { q.2 with status := OCPP16ChargePointStatus.Finishing }) else q) x) =
          (fun q => q.1 != 0 && q.2.transactionId == some tid) x := by
        intro x
        by_cases hx : x.1 = p.1 <;> simp [hx]
      rw [find?_map_of_pred_invariant hinv st.connectors, hfind]
      simp
    refine ⟨by rw [hrun]; rfl, ?_, ?_⟩
    · rw [hrun]
      show (getConnectorStatus (updateConnector st p.1 _) p.1).map _ = _
      rw [getConnectorStatus_updateConnector, if_pos rfl,
        getConnectorStatus_of_nodup st hnd p hpmem]
      rfl
    · rw [hrun]
      have hE : getEnergyActiveImportRegisterByTransactionId
          (updateConnector st p.1
            (fun c => { c with status := OCPP16ChargePointStatus.Finishing })) (some tid) =
          some p.2.transactionEnergyActiveImportRegisterValue := by
        rw [getEnergyActiveImportRegisterByTransactionId, hmap]
        rfl
      have hT : getTransactionIdTag
          (updateConnector st p.1
            (fun c => { c with status := OCPP16ChargePointStatus.Finishing })) (some tid) =
          p.2.transactionIdTag := by
        rw [getTransactionIdTag, hmap]
        rfl
      rw [remoteStopBody]
      simp only [hE, hT]
      by_cases hmv : st.beginEndMeterValues && st.ocppStrictCompliance
          && !st.outOfOrderEndMeterValues <;>
        simp [updateConnector, hmv, List.filter]

/-- The station used by the RemoteStopTransaction witness: connector 1
holds transaction 7 with register 3 and idTag "W". -/
def remoteStopWitnessStation : ChargingStation :=
  { connectors := [(0, {}),
      (1, { transactionStarted := true, transactionId := some 7,
            transactionIdTag := some "W",
            transactionEnergyActiveImportRegisterValue := 3 })] }

/-- Witness for `remoteStopTransaction_behaviour`: stopping transaction 7
is Accepted with one StopTransaction carrying register 3 and idTag "W";
stopping the unknown transaction 99 is Rejected with no emission. -/
theorem remoteStopTransaction_behaviour_witness :
    handleRequestRemoteStopTransaction remoteStopWitnessStation 99 =
      (remoteStopWitnessStation, DefaultStatus.Rejected, [])
    ∧ (handleRequestRemoteStopTransaction remoteStopWitnessStation 7).2.1 =
      DefaultStatus.Accepted
    ∧ (handleRequestRemoteStopTransaction remoteStopWitnessStation 7).2.2.filter
        (fun e => match e with
          | OutboundRequest.stopTransaction _ _ _ _ => true
          | _ => false) =
      [OutboundRequest.stopTransaction (some 7) (some 3) (some "W") none] := by
  have h1 := (remoteStopTransaction_behaviour remoteStopWitnessStation 99 (by decide)).1
    (by decide)
  have h2 := (remoteStopTransaction_behaviour remoteStopWitnessStation 7 (by decide)).2
    (1, { transactionStarted := true, transactionId := some 7, transactionIdTag := some "W",
          transactionEnergyActiveImportRegisterValue := 3 })
    (by decide)
  exact ⟨h1, h2.1, by simpa using h2.2.2⟩

/-! ## Automatic transaction generator: stop -/

/-- The ATG state the claim is about: the cooperative stop flag. -/
structure ATGState where
  timeToStop : Bool
deriving DecidableEq, Repr

/-- The loop of `AutomaticTransactionGenerator.stop`
(AutomaticTransactionGenerator.ts lines 40-51): for each connector of the
station, a started transaction sends one StopTransaction with the
transaction id, the energy register, the transaction idTag and the given
reason. Returns `none` on the JS TypeError of `transactionId.toString()`
when a started connector has no transaction id. -/
def atgStopLoop (st : ChargingStation) (reason : OCPP16StopTransactionReason) :
    List (Nat × ConnectorStatus) → Option (List OutboundRequest)
  | [] => some []
  | q :: rest =>
    match getConnectorStatus st q.1 with
    | none => none
    | some c =>
      if c.transactionStarted then
        match c.transactionId with
        | none => none
        | some tid =>
          (atgStopLoop st reason rest).map
            (fun evs => OutboundRequest.stopTransaction (some tid)
              (getEnergyActiveImportRegisterByTransactionId st (some tid))
              (getTransactionIdTag st (some tid)) (some reason) :: evs)
      else atgStopLoop st reason rest

/-- `AutomaticTransactionGenerator.stop(reason = None)`: the loop over all
connectors followed by `timeToStop = true`. -/
def atgStop (st : ChargingStation)
    (reason : OCPP16StopTransactionReason := OCPP16StopTransactionReason.NONE) :
    Option (List OutboundRequest × ATGState) :=
  (atgStopLoop st reason st.connectors).map (fun evs => (evs, ⟨true⟩))

/-- Run of the ATG stop loop when every started connector carries a
transaction id: one StopTransaction per started connector, in connector
order. -/
theorem atgStopLoop_run (st : ChargingStation) (reason : OCPP16StopTransactionReason) :
    ∀ l : List (Nat × ConnectorStatus),
      (∀ p ∈ l, getConnectorStatus st p.1 = some p.2) →
      (∀ p ∈ l, p.2.transactionStarted = true → p.2.transactionId.isSome) →
      atgStopLoop st reason l = some (l.filterMap
        (fun p =>
          if p.2.transactionStarted then
            some (OutboundRequest.stopTransaction p.2.transactionId
              (getEnergyActiveImportRegisterByTransactionId st p.2.transactionId)
              (getTransactionIdTag st p.2.transactionId) (some reason))
          else none)) := by
  intro l
  induction l with
  | nil => intro _ _; rfl
  | cons q rest ih =>
    intro hl hs
    rw [atgStopLoop, hl q (by simp)]
    cases hst : q.2.transactionStarted with
    | true =>
      obtain ⟨t, ht⟩ := Option.isSome_iff_exists.mp (hs q (by simp) hst)
      rw [ih (fun p hp => hl p (by simp [hp])) (fun p hp => hs p (by simp [hp]))]
      simp [hst, ht, List.filterMap_cons]
    | false =>
      rw [ih (fun p hp => hl p (by simp [hp])) (fun p hp => hs p (by simp [hp]))]
      simp [hst, List.filterMap_cons]

/-- `find?` of a predicate that holds at `p` and at no other member. -/
theorem find?_eq_some_of_unique {α : Type} {pred : α → Bool} :
    ∀ (l : List α) (p : α), p ∈ l → pred p = true →
      (∀ q ∈ l, pred q = true → q = p) → l.find? pred = some p := by
  intro l
  induction l with
  | nil => intro p hp; exact absurd hp (by simp)
  | cons a t ih =>
    intro p hp hpred huniq
    cases hpa : pred a with
    | true =>
      rw [List.find?_cons_of_pos _ hpa, huniq a (by simp) hpa]
    | false =>
      rcases List.mem_cons.mp hp with hp2 | hp2
      · exact absurd (hp2 ▸ hpred) (by simp [hpa])
      · rw [List.find?_cons_of_neg _ (by simp [hpa])]
        exact ih p hp2 hpred (fun q hq => huniq q (by simp [hq]))

/-- Filtering a `filterMap` whose produced elements all fail the filter
gives the empty list. -/
theorem filter_filterMap_nil {α β : Type} {F : α → Option β} {g : β → Bool} :
    ∀ l : List α, (∀ q ∈ l, ∀ e, F q = some e → g e = false) →
      (l.filterMap F).filter g = [] := by
  intro l
  induction l with
  | nil => intro _; rfl
  | cons a t ih =>
    intro h
    rw [List.filterMap_cons]
    cases hFa : F a with
    | none => exact ih (fun q hq => h q (by simp [hq]))
    | some e =>
      rw [List.filter_cons_of_neg (by simp [h a (by simp) e hFa])]
      exact ih (fun q hq => h q (by simp [hq]))

/-- The length of a `filterMap` through an if-some-else-none function is a
`countP`. -/
theorem length_filterMap_guard {α β : Type} (h : α → Bool) (f : α → β) :
    ∀ l : List α,
      (l.filterMap (fun x => if h x then some (f x) else none)).length = l.countP h := by
  intro l
  induction l with
  | nil => rfl
  | cons a t ih =>
    by_cases ha : h a <;>
      simp [List.filterMap_cons, List.countP_cons, ha, ih]

/-- Filtering a `filterMap` that produces a matching element exactly at the
(unique) member `p` gives that element alone. -/
theorem filter_filterMap_singleton {α β : Type} {F : α → Option β} {g : β → Bool}
    {p : α} {ep : β} :
    ∀ l : List α, l.Nodup → p ∈ l → F p = some ep → g ep = true →
      (∀ q ∈ l, q ≠ p → ∀ e, F q = some e → g e = false) →
      (l.filterMap F).filter g = [ep] := by
  intro l
  induction l with
  | nil => intro _ hp; exact absurd hp (by simp)
  | cons a t ih =>
    intro hnd hp hFp hg hothers
    rcases List.mem_cons.mp hp with hp2 | hp2
    · subst hp2
      rw [List.filterMap_cons, hFp, List.filter_cons_of_pos hg]
      have hnil : (t.filterMap F).filter g = [] := by
        apply filter_filterMap_nil
        intro q hq e hFq
        have hqne : q ≠ p := by
          intro he
          subst he
          exact (List.nodup_cons.mp hnd).1 hq
        exact hothers q (by simp [hq]) hqne e hFq
      rw [hnil]
    · have hane : a ≠ p := by
        intro he
        subst he
        exact (List.nodup_cons.mp hnd).1 hp2
      rw [List.filterMap_cons]
      cases hFa : F a with
      | none =>
        exact ih (List.nodup_cons.mp hnd).2 hp2 hFp hg
          (fun q hq => hothers q (by simp [hq]))
      | some e =>
        rw [List.filter_cons_of_neg (by simp [hothers a (by simp) hane e hFa])]
        exact ih (List.nodup_cons.mp hnd).2 hp2 hFp hg
          (fun q hq => hothers q (by simp [hq]))

/-- C7: when every started connector carries a transaction id (invariant 1),
transient transaction fields of stopped connectors are reset (lifecycle),
transaction ids are unique across started connectors and transactions only
run on connectors of id > 0, `ATG.stop(reason)` sends exactly one
StopTransaction per connector whose `transactionStarted` was true, carrying
that connector's transaction id, energy register, idTag and the given
reason; connectors without a started transaction cause no StopTransaction;
and `timeToStop` is true when `stop` returns. -/
theorem atgStop_behaviour (st : ChargingStation) (reason : OCPP16StopTransactionReason)
    (hnd : (st.connectors.map Prod.fst).Nodup)
    (hinv : ∀ p ∈ st.connectors, p.2.transactionStarted = true → p.2.transactionId.isSome)
    (hpos : ∀ p ∈ st.connectors, p.2.transactionStarted = true → p.1 ≠ 0)
    (hclean : ∀ p ∈ st.connectors, p.2.transactionStarted = false → p.2.transactionId = none)
    (huniq : ∀ p ∈ st.connectors, ∀ q ∈ st.connectors,
      p.2.transactionStarted = true → q.2.transactionStarted = true →
      p.2.transactionId = q.2.transactionId → p.1 = q.1) :
    ∃ evs, atgStop st reason = some (evs, ⟨true⟩)
      ∧ evs.length = st.connectors.countP (fun p => p.2.transactionStarted)
      ∧ ∀ p ∈ st.connectors, p.2.transactionStarted = true →
          evs.filter
            (fun e => match e with
              | OutboundRequest.stopTransaction t _ _ _ => t == p.2.transactionId
              | _ => false) =
          [OutboundRequest.stopTransaction p.2.transactionId
            (some p.2.transactionEnergyActiveImportRegisterValue)
            p.2.transactionIdTag (some reason)] := by
  have hentriesnd : st.connectors.Nodup := hnd.of_map
  have hrun := atgStopLoop_run st reason st.connectors
    (getConnectorStatus_of_nodup st hnd) hinv
  have hsame : ∀ p, p ∈ st.connectors → p.2.transactionStarted = true → ∀ q ∈ st.connectors,
      (q.1 != 0 && q.2.transactionId == p.2.transactionId) = true → q = p := by
    intro p hp hps q hq hpredq
    simp only [Bool.and_eq_true, bne_iff_ne, ne_eq, beq_iff_eq] at hpredq
    cases hqs : q.2.transactionStarted with
    | false =>
      obtain ⟨t, ht⟩ := Option.isSome_iff_exists.mp (hinv p hp hps)
      rw [hclean q hq hqs, ht] at hpredq
      exact absurd hpredq.2 (by simp)
    | true =>
      have hkey : q.1 = p.1 := huniq q hq p hp hqs hps hpredq.2
      have h1 := getConnectorStatus_of_nodup st hnd q hq
      have h2 := getConnectorStatus_of_nodup st hnd p hp
      rw [hkey, h2] at h1
      have : q.2 = p.2 := Option.some.inj h1.symm
      calc q = (q.1, q.2) := rfl
        _ = (p.1, p.2) := by rw [hkey, this]
        _ = p := rfl
  have hfindp : ∀ p, p ∈ st.connectors → p.2.transactionStarted = true →
      st.connectors.find? (fun q => q.1 != 0 && q.2.transactionId == p.2.transactionId) =
        some p := by
    intro p hp hps
    exact find?_eq_some_of_unique st.connectors p hp
      (by simp [hpos p hp hps]) (hsame p hp hps)
  refine ⟨st.connectors.filterMap
    (fun p =>
      if p.2.transactionStarted then
        some (OutboundRequest.stopTransaction p.2.transactionId
          (getEnergyActiveImportRegisterByTransactionId st p.2.transactionId)
          (getTransactionIdTag st p.2.transactionId) (some reason))
      else none), ?_, ?_, ?_⟩
  · rw [atgStop, hrun]
    rfl
  · exact length_filterMap_guard _ _ st.connectors
  · intro p hp hps
    have hE : getEnergyActiveImportRegisterByTransactionId st p.2.transactionId =
        some p.2.transactionEnergyActiveImportRegisterValue := by
      rw [getEnergyActiveImportRegisterByTransactionId, hfindp p hp hps]
      rfl
    have hT : getTransactionIdTag st p.2.transactionId = p.2.transactionIdTag := by
      rw [getTransactionIdTag, hfindp p hp hps]
      rfl
    apply filter_filterMap_singleton st.connectors hentriesnd hp
    · rw [if_pos hps, hE, hT]
    · simp
    · intro q hq hqne e hFq
      cases hqs : q.2.transactionStarted with
      | false => rw [hqs] at hFq; exact absurd hFq (by simp)
      | true =>
        rw [hqs] at hFq
        simp only [if_true] at hFq
        have he : e = OutboundRequest.stopTransaction q.2.transactionId
            (getEnergyActiveImportRegisterByTransactionId st q.2.transactionId)
            (getTransactionIdTag st q.2.transactionId) (some reason) :=
          (Option.some.inj hFq).symm
        subst he
        simp only
        cases htq : q.2.transactionId == p.2.transactionId with
        | false => rfl
        | true =>
          have : q = p := hsame p hp hps q hq
            (by simp [hpos q hq hqs, beq_iff_eq.mp htq])
          exact absurd this hqne

/-- The connector of the ATG witness: it runs transaction 4 with register
11 and idTag "A". -/
def atgWitnessConnector : ConnectorStatus :=
  { transactionStarted := true, transactionId := some 4, transactionIdTag := some "A",
    transactionEnergyActiveImportRegisterValue := 11 }

/-- The station of the ATG witness: connector 1 runs a transaction;
connectors 0 and 2 are idle. -/
def atgWitnessStation : ChargingStation :=
  { connectors := [(0, {}), (1, atgWitnessConnector), (2, {})] }

/-- Witness for `atgStop_behaviour`: on the concrete station, stop sends
one StopTransaction for connector 1 with its fields and the None reason,
one event in total, and raises timeToStop. -/
theorem atgStop_behaviour_witness :
    ∃ evs, atgStop atgWitnessStation OCPP16StopTransactionReason.NONE = some (evs, ⟨true⟩)
      ∧ evs.length = 1
      ∧ evs.filter
          (fun e => match e with
            | OutboundRequest.stopTransaction t _ _ _ => t == some 4
            | _ => false) =
        [OutboundRequest.stopTransaction (some 4) (some 11) (some "A")
          (some OCPP16StopTransactionReason.NONE)] := by
  obtain ⟨evs, h1, h2, h3⟩ := atgStop_behaviour atgWitnessStation
    OCPP16StopTransactionReason.NONE (by decide) (by decide) (by decide) (by decide)
    (by decide)
  refine ⟨evs, h1, by simpa using h2, ?_⟩
  have := h3 (1, atgWitnessConnector) (by simp [atgWitnessStation]) rfl
  simpa [atgWitnessConnector] using this

/-! ## RemoteStartTransaction -/

/-- A RemoteStartTransaction request payload. -/
structure RemoteStartTransactionRequest where
  connectorId : Nat
  idTag : String
  chargingProfile : Option OCPP16ChargingProfile := none
deriving DecidableEq, Repr

/-- The Central-System responses observed by the RemoteStartTransaction
handler: the `idTagInfo?.status` of the Authorize response and the
`idTagInfo.status` of the StartTransaction response. -/
structure RemoteStartEnv where
  authorizeStatus : Option OCPP16AuthorizationStatus := none
  startStatus : OCPP16AuthorizationStatus := OCPP16AuthorizationStatus.Accepted
deriving DecidableEq, Repr

/-- Modelled from the spec: `ChargingStation.setChargingProfile`
(spec section 4.4): push the profile onto the connector stack, replacing
any entry with matching `chargingProfileId` or matching
`(purpose, stackLevel)`. -/
def setChargingProfileOnConnector (st : ChargingStation) (id : Nat)
    (cp : OCPP16ChargingProfile) : ChargingStation :=
  updateConnector st id (fun c =>
    { c with chargingProfiles :=
        if c.chargingProfiles.any (fun p => p.chargingProfileId == cp.chargingProfileId
            || (p.chargingProfilePurpose == cp.chargingProfilePurpose
                && p.stackLevel == cp.stackLevel)) then
          c.chargingProfiles.map (fun p =>
            if p.chargingProfileId == cp.chargingProfileId
                || (p.chargingProfilePurpose == cp.chargingProfilePurpose
                    && p.stackLevel == cp.stackLevel) then cp else p)
        else c.chargingProfiles ++ [cp] })

/-- `setRemoteStartTransactionChargingProfile` (AbstractUIService.ts lines
792-813): no profile allows the start; a TxProfile is installed and allows
it; any other purpose denies it. -/
def setRemoteStartTransactionChargingProfile (st : ChargingStation) (id : Nat)
    (cp : Option OCPP16ChargingProfile) : Bool × ChargingStation :=
  match cp with
  | some p =>
    if p.chargingProfilePurpose == some ChargingProfilePurposeType.TxProfile then
      (true, setChargingProfileOnConnector st id p)
    else (false, st)
  | none => (true, st)

/-- `notifyRemoteStartTransactionRejected` (AbstractUIService.ts lines
759-790): when the connector status is not Available, emit
StatusNotification(Available) and set the status back to Available; always
answer Rejected. `none` on the TypeError when the connector is missing. -/
def notifyRemoteStartTransactionRejected (st : ChargingStation) (connectorId : Nat) :
    Option (ChargingStation × DefaultStatus × List OutboundRequest) :=
  match getConnectorStatus st connectorId with
  | none => none
  | some c =>
    if c.status ≠ OCPP16ChargePointStatus.Available then
      some (updateConnector st connectorId
          (fun c2 => { c2 with status := OCPP16ChargePointStatus.Available }),
        DefaultStatus.Rejected,
        [OutboundRequest.statusNotification connectorId OCPP16ChargePointStatus.Available])
    else some (st, DefaultStatus.Rejected, [])

/-- The start block that `handleRequestRemoteStartTransaction` inlines in
both its authorized and its authorization-free paths: install the optional
charging profile, mark `transactionRemoteStarted`, emit StartTransaction
and answer Accepted exactly when the Central System accepts. `ev` is the
prefix of requests already emitted. -/
def remoteStartTransactionStartBlock (st : ChargingStation) (env : RemoteStartEnv)
    (cid : Nat) (idTag : String) (cp : Option OCPP16ChargingProfile)
    (ev : List OutboundRequest) :
    Option (ChargingStation × DefaultStatus × List OutboundRequest) :=
  let install := setRemoteStartTransactionChargingProfile st cid cp
  if install.1 then
    let st2 := updateConnector install.2 cid
      (fun c => { c with transactionRemoteStarted := true })
    let ev2 := ev ++ [OutboundRequest.startTransaction cid idTag]
    if env.startStatus = OCPP16AuthorizationStatus.Accepted then
      some (st2, DefaultStatus.Accepted, ev2)
    else
      (notifyRemoteStartTransactionRejected st2 cid).map
        (fun r => (r.1, r.2.1, ev2 ++ r.2.2))
  else
    (notifyRemoteStartTransactionRejected install.2 cid).map
      (fun r => (r.1, r.2.1, ev ++ r.2.2))

/-- `handleRequestRemoteStartTransaction` (AbstractUIService.ts lines
621-757). A falsy `connectorId` (0) goes straight to
`notifyRemoteStartTransactionRejected`; otherwise StatusNotification
(Preparing) is emitted first, then the station availability gate, then the
authorization paths, then the start block. -/
def handleRequestRemoteStartTransaction (st : ChargingStation) (env : RemoteStartEnv)
    (req : RemoteStartTransactionRequest) :
    Option (ChargingStation × DefaultStatus × List OutboundRequest) :=
  let cid := req.connectorId
  if cid ≠ 0 then
    match getConnectorStatus st cid with
    | none => none
    | some _ =>
      let ev0 := [OutboundRequest.statusNotification cid OCPP16ChargePointStatus.Preparing]
      let st1 := updateConnector st cid
        (fun c => { c with status := OCPP16ChargePointStatus.Preparing })
      if isChargingStationAvailable st1 then
        if st1.authorizeRemoteTxRequests then
          if st1.localAuthListEnabled && !st1.authorizedTags.isEmpty
              && st1.authorizedTags.contains req.idTag then
            remoteStartTransactionStartBlock
              (updateConnector st1 cid (fun c => { c with
                localAuthorizeIdTag := some req.idTag, idTagLocalAuthorized := true }))
              env cid req.idTag req.chargingProfile ev0
          else if st1.mayAuthorizeAtRemoteStart then
            let st2 := updateConnector st1 cid
              (fun c => { c with authorizeIdTag := some req.idTag })
            let ev1 := ev0 ++ [OutboundRequest.authorize req.idTag]
            if env.authorizeStatus = some OCPP16AuthorizationStatus.Accepted then
              remoteStartTransactionStartBlock st2 env cid req.idTag req.chargingProfile ev1
            else
              (notifyRemoteStartTransactionRejected st2 cid).map
                (fun r => (r.1, r.2.1, ev1 ++ r.2.2))
          else
            (notifyRemoteStartTransactionRejected st1 cid).map
              (fun r => (r.1, r.2.1, ev0 ++ r.2.2))
        else remoteStartTransactionStartBlock st1 env cid req.idTag req.chargingProfile ev0
      else
        (notifyRemoteStartTransactionRejected st1 cid).map
          (fun r => (r.1, r.2.1, ev0 ++ r.2.2))
  else notifyRemoteStartTransactionRejected st cid

/-- C9: RemoteStartTransaction with connectorId 0 answers Rejected, emits
no StatusNotification(Preparing), no Authorize and no StartTransaction, and
sets no connector status to Preparing. -/
theorem remoteStartTransaction_connector_zero (st : ChargingStation)
    (env : RemoteStartEnv) (idTag : String) (cp : Option OCPP16ChargingProfile)
    (c : ConnectorStatus) (h0 : getConnectorStatus st 0 = some c) :
    ∃ st2 events,
      handleRequestRemoteStartTransaction st env ⟨0, idTag, cp⟩ =
        some (st2, DefaultStatus.Rejected, events)
      ∧ (∀ e ∈ events,
          (∀ i, e ≠ OutboundRequest.statusNotification i OCPP16ChargePointStatus.Preparing)
          ∧ (∀ t, e ≠ OutboundRequest.authorize t)
          ∧ (∀ i t, e ≠ OutboundRequest.startTransaction i t))
      ∧ (∀ i, (getConnectorStatus st2 i).map (fun c2 => c2.status) =
            some OCPP16ChargePointStatus.Preparing →
          (getConnectorStatus st i).map (fun c2 => c2.status) =
            some OCPP16ChargePointStatus.Preparing) := by
  have hmain : handleRequestRemoteStartTransaction st env ⟨0, idTag, cp⟩ =
      notifyRemoteStartTransactionRejected st 0 := by
    simp [handleRequestRemoteStartTransaction]
  by_cases hs : c.status = OCPP16ChargePointStatus.Available
  · refine ⟨st, [], ?_, by simp, by intro i h; exact h⟩
    rw [hmain, notifyRemoteStartTransactionRejected, h0]
    simp [hs]
  · refine ⟨updateConnector st 0
        (fun c2 => { c2 with status := OCPP16ChargePointStatus.Available }),
      [OutboundRequest.statusNotification 0 OCPP16ChargePointStatus.Available], ?_, ?_, ?_⟩
    · rw [hmain, notifyRemoteStartTransactionRejected, h0]
      simp [hs]
    · intro e he
      rw [List.mem_singleton] at he
      subst he
      refine ⟨fun i => ?_, fun t => by simp, fun i t => by simp⟩
      intro hcontra
      injection hcontra with h1 h2
      exact absurd h2 (by simp)
    · intro i hi
      rw [getConnectorStatus_updateConnector] at hi
      by_cases hi0 : i = 0
      · rw [if_pos hi0] at hi
        rcases hlook : getConnectorStatus st i with _ | cc
        · rw [hlook] at hi; exact absurd hi (by simp)
        · rw [hlook] at hi
          simp at hi
      · rw [if_neg hi0] at hi
        exact hi

/-- The station of the RemoteStartTransaction witness: connector 0 is in a
non-Available status so that the rejection path emits the roll-back
StatusNotification. -/
def remoteStartWitnessStation : ChargingStation :=
  { connectors := [(0, { status := OCPP16ChargePointStatus.Unavailable }), (1, {})] }

/-- Witness for `remoteStartTransaction_connector_zero` at a concrete
station and environment. -/
theorem remoteStartTransaction_connector_zero_witness :
    ∃ st2 events,
      handleRequestRemoteStartTransaction remoteStartWitnessStation {} ⟨0, "AAA", none⟩ =
        some (st2, DefaultStatus.Rejected, events)
      ∧ (∀ e ∈ events,
          (∀ i, e ≠ OutboundRequest.statusNotification i OCPP16ChargePointStatus.Preparing)
          ∧ (∀ t, e ≠ OutboundRequest.authorize t)
          ∧ (∀ i t, e ≠ OutboundRequest.startTransaction i t)) := by
  obtain ⟨st2, events, h1, h2, h3⟩ := remoteStartTransaction_connector_zero
    remoteStartWitnessStation {} "AAA" none
    { status := OCPP16ChargePointStatus.Unavailable } (by decide)
  exact ⟨st2, events, h1, h2⟩

/-! ## TriggerMessage -/

/-- A TriggerMessage request payload; `connectorId` is optional and signed
(the spec requires rejecting negative values). -/
structure OCPP16TriggerMessageRequest where
  requestedMessage : MessageTrigger
  connectorId : Option Int := none
deriving DecidableEq, Repr

/-- `TriggerMessageStatus` of the response. -/
inductive TriggerMessageStatus
  | Accepted
  | Rejected
  | NotImplemented
deriving DecidableEq, Repr

/-- An outbound request scheduled behind the trigger delay. A scheduled
StatusNotification carries the status the timer callback will read
(`none` when its connector lookup would fail). -/
inductive ScheduledRequest
  | bootNotification
  | heartbeat
  | statusNotification (connectorId : Nat) (status : Option OCPP16ChargePointStatus)
deriving DecidableEq, Repr

/-- `commandPayload?.connectorId < 0` of the TriggerMessage handler
(`undefined < 0` is false). -/
def triggerConnectorNegative : Option Int → Bool
  | some n => n < 0
  | none => false

/-- `handleRequestTriggerMessage` (AbstractUIService.ts lines 990-1113):
the RemoteTrigger feature gate, the negative-connector rejection, then one
scheduled request per requested message; a StatusNotification trigger with
a falsy connectorId (absent or 0) schedules one notification per connector
carrying that connector's current status. -/
def handleRequestTriggerMessage (st : ChargingStation)
    (req : OCPP16TriggerMessageRequest) : TriggerMessageStatus × List ScheduledRequest :=
  if !(checkFeatureProfile st OCPP16SupportedFeatureProfiles.RemoteTrigger) then
    (TriggerMessageStatus.NotImplemented, [])
  else if triggerConnectorNegative req.connectorId then
    (TriggerMessageStatus.Rejected, [])
  else
    match req.requestedMessage with
    | MessageTrigger.BootNotification =>
      (TriggerMessageStatus.Accepted, [ScheduledRequest.bootNotification])
    | MessageTrigger.Heartbeat =>
      (TriggerMessageStatus.Accepted, [ScheduledRequest.heartbeat])
    | MessageTrigger.StatusNotification =>
      (TriggerMessageStatus.Accepted,
        match req.connectorId with
        | some n =>
          if n ≠ 0 then
            [ScheduledRequest.statusNotification n.toNat
              ((getConnectorStatus st n.toNat).map (fun c => c.status))]
          else
            st.connectors.map (fun p => ScheduledRequest.statusNotification p.1
              ((getConnectorStatus st p.1).map (fun c => c.status)))
        | none =>
          st.connectors.map (fun p => ScheduledRequest.statusNotification p.1
            ((getConnectorStatus st p.1).map (fun c => c.status))))
    | _ => (TriggerMessageStatus.NotImplemented, [])

/-- C10: a TriggerMessage for StatusNotification with RemoteTrigger enabled
and connectorId 0 behaves exactly as with connectorId absent: Accepted,
with one scheduled StatusNotification per connector carrying that
connector's current status. -/
theorem triggerMessage_statusNotification_connector_zero (st : ChargingStation)
    (h : checkFeatureProfile st OCPP16SupportedFeatureProfiles.RemoteTrigger = true) :
    handleRequestTriggerMessage st ⟨MessageTrigger.StatusNotification, some 0⟩ =
      handleRequestTriggerMessage st ⟨MessageTrigger.StatusNotification, none⟩
    ∧ handleRequestTriggerMessage st ⟨MessageTrigger.StatusNotification, some 0⟩ =
      (TriggerMessageStatus.Accepted,
        st.connectors.map (fun p => ScheduledRequest.statusNotification p.1
          ((getConnectorStatus st p.1).map (fun c => c.status)))) := by
  constructor <;> simp [handleRequestTriggerMessage, h, triggerConnectorNegative]

/-- The station of the TriggerMessage witness: RemoteTrigger enabled,
connector 1 Charging. -/
def triggerWitnessStation : ChargingStation :=
  { connectors := [(0, {}), (1, { status := OCPP16ChargePointStatus.Charging })],
    supportedFeatureProfiles := [OCPP16SupportedFeatureProfiles.RemoteTrigger] }

/-- Witness for `triggerMessage_statusNotification_connector_zero` at a
concrete station. -/
theorem triggerMessage_statusNotification_connector_zero_witness :
    handleRequestTriggerMessage triggerWitnessStation
      ⟨MessageTrigger.StatusNotification, some 0⟩ =
      handleRequestTriggerMessage triggerWitnessStation
        ⟨MessageTrigger.StatusNotification, none⟩
    ∧ handleRequestTriggerMessage triggerWitnessStation
        ⟨MessageTrigger.StatusNotification, some 0⟩ =
      (TriggerMessageStatus.Accepted,
        [ScheduledRequest.statusNotification 0 (some OCPP16ChargePointStatus.Available),
         ScheduledRequest.statusNotification 1 (some OCPP16ChargePointStatus.Charging)]) := by
  have h := triggerMessage_statusNotification_connector_zero triggerWitnessStation
    (by decide)
  exact ⟨h.1, by rw [h.2]; rfl⟩

end ChargingStationsSimulator
